import Mathlib

set_option maxRecDepth 8192

/-!
Verification development for the ViewCounter-d repository (src/code.js).

This file shallowly embeds the proxy pool manager, the source fetchers, the
retry/backoff orchestrator (`scrapeWithRetry`) and the two dispatchers
(`runConcurrentScraping`, `runSequentialScraping`) of src/code.js as
executable Lean functions, and settles the specification claims about them.

Modelling conventions:
* JavaScript global mutable state (the module-level pool variables of
  code.js lines 102-110) becomes the explicit `PoolState` record threaded
  through every operation.
* Network effects become environment oracles: a free-list fetch is a
  function from a fetch counter to `Except String String` (error message or
  response body), a Proxifly API call is a function to
  `Except String (List Proxy)`.
* `Math.random()`-driven choices are supplied as numeric oracle inputs.
* Thrown JavaScript errors become `Except`/explicit error results carrying
  the exact message strings of the source.
-/


set_option autoImplicit false

/-- One proxy record, as built by the fetchers in code.js: the free-list
fetcher fills `ipPort`/`protocol`/`source` (lines 173-179), the Proxifly API
may deliver either an `ipPort` field or separate `ip`/`port` fields. -/
structure Proxy where
  ipPort : Option String := none
  ip : Option String := none
  port : Option Nat := none
  protocol : String := ""
  source : String := ""
  username : Option String := none
  password : Option String := none
  country : Option String := none
deriving Repr, DecidableEq, Inhabited

/-- Stand-in for the `JSON.stringify(proxy)` fallback of `getProxyId`
(code.js line 120): a rendering of the whole record. Its exact text is
irrelevant to every claim (no claim exercises the fallback). -/
def jsonStringify (p : Proxy) : String :=
  "json(" ++ toString (repr p.ipPort) ++ "," ++ toString (repr p.ip) ++ ","
    ++ toString (repr p.port) ++ "," ++ p.protocol ++ "," ++ p.source ++ ")"

/-- `getProxyId` (code.js lines 113-121): the canonical proxy identity.
`ipPort` if present, else `ip:port`, else the JSON fallback. -/
def getProxyId (p : Proxy) : String :=
  match p.ipPort with
  | some s => s
  | none =>
    match p.ip, p.port with
    | some ip, some port => ip ++ ":" ++ toString port
    | _, _ => jsonStringify p

/-- One free-proxy-list source descriptor (code.js lines 85-95). -/
structure FetchSource where
  url : String
  protocol : String
  priority : Nat
deriving Repr, DecidableEq, Inhabited

/-- The recognized configuration surface of the `CONFIG` object
(code.js lines 36-100), restricted to the fields the embedded core reads. -/
structure Config where
  maxRetries : Nat
  backoffDelays : List Nat
  maxConcurrent : Nat
  totalRequests : Nat
  proxyMode : String
  proxiflyApiKey : String
  proxiflyRotateProxies : Bool
  freeSources : List FetchSource
  freeRotateProxies : Bool
deriving Repr, DecidableEq, Inhabited

/-- The literal `CONFIG` of code.js (lines 36-100): `maxRetries: 5`,
`backoffDelays: [1000, 3000, 5000, 9000, 15000]`, `maxConcurrent: 5`,
`totalRequests: 250`, `proxyMode: 'free-proxy-list'`, no Proxifly API key,
both rotation flags true, and the two CDN sources with priorities 1 and 2. -/
def defaultConfig : Config where
  maxRetries := 5
  backoffDelays := [1000, 3000, 5000, 9000, 15000]
  maxConcurrent := 5
  totalRequests := 250
  proxyMode := "free-proxy-list"
  proxiflyApiKey := ""
  proxiflyRotateProxies := true
  freeSources :=
    [ { url := "https://cdn.jsdelivr.net/gh/proxifly/free-proxy-list@main/proxies/protocols/socks5/data.txt"
      , protocol := "socks5", priority := 1 }
    , { url := "https://cdn.jsdelivr.net/gh/proxifly/free-proxy-list@main/proxies/all/data.txt"
      , protocol := "http", priority := 2 } ]
  freeRotateProxies := true

/-- The module-level mutable pool state of code.js (lines 102-110):
`proxiflyProxies`, `proxiflyCurrentIndex`, `freeProxyList`, `freeProxyIndex`,
`usedProxies`, `proxyFetchAttempts`, `currentSourceIndex`. -/
structure PoolState where
  proxiflyProxies : List Proxy
  proxiflyCurrentIndex : Nat
  freeProxyList : List Proxy
  freeProxyIndex : Nat
  usedProxies : Finset String
  proxyFetchAttempts : Nat
  currentSourceIndex : Nat

/-- The state produced by evaluating the module top level: empty pools,
empty used-proxy registry, zero counters (code.js lines 102-110). -/
def initState : PoolState where
  proxiflyProxies := []
  proxiflyCurrentIndex := 0
  freeProxyList := []
  freeProxyIndex := 0
  usedProxies := ∅
  proxyFetchAttempts := 0
  currentSourceIndex := 0

/-- `MAX_FETCH_ATTEMPTS` (code.js line 110). -/
def MAX_FETCH_ATTEMPTS : Nat := 5

/-- Environment oracle for `fetchFromUrl` on a free-list source: for the
n-th fetch performed, either a transport error message or the response
body. -/
def FreeEnv : Type := Nat → Except String String

/-- Environment oracle for the Proxifly API: for the n-th API call, either
an error message or the parsed list of proxy records (covering both the
array response and the wrapped single-object response of lines 286-295). -/
def PEnv : Type := Nat → Except String (List Proxy)

/-- Split a character list at newline characters (the `data.split('\n')` of
code.js line 168), implemented structurally so that it evaluates in the
kernel. -/
def splitNl : List Char → List (List Char)
  | [] => [[]]
  | c :: rest =>
    let r := splitNl rest
    if c = '\n' then [] :: r
    else
      match r with
      | [] => [[c]]
      | l :: ls => (c :: l) :: ls

/-- Trim whitespace from both ends of a character list (`line.trim()`). -/
def trimChars (l : List Char) : List Char :=
  ((l.dropWhile Char.isWhitespace).reverse.dropWhile Char.isWhitespace).reverse

/-- The line parsing of `fetchFreeProxyList` (code.js line 168):
`data.split('\n').map(line => line.trim()).filter(line => line.length > 0)`. -/
def parseProxyLines (data : String) : List String :=
  (((splitNl data.toList).map trimChars).filter (fun l => 0 < l.length)).map
    (fun l => ⟨l⟩)

/-- Record construction of `fetchFreeProxyList` (code.js lines 173-179). -/
def linesToProxies (src : FetchSource) (ls : List String) : List Proxy :=
  ls.map (fun l => { ipPort := some l, protocol := src.protocol, source := src.url })

/-- Result of a fetcher: an error or success (on success the pool state has
been updated, mirroring the global assignments in code.js), the resulting
state, and the advanced fetch counter. -/
structure FetchOut where
  result : Except String Unit
  st : PoolState
  k : Nat

/-- `fetchFreeProxyList` (code.js lines 152-216), recursing over the source
list. The recursion of the source is on `sourceIndex`; here it is structural
on the list of sources not yet tried (`sources.drop sourceIndex`), with
`sourceIndex` carried alongside — `restSources ≠ []` is exactly the source's
`sourceIndex + 1 < sources.length`. The body reproduces the source's
try/catch: the base case models the `throw` at line 156; a transport error
or an error thrown by the empty-after-filter recursion (line 193) lands in
the catch (lines 205-215), which retries the next source or gives up. -/
def fetchFreeAux (env : FreeEnv) (st : PoolState) :
    List FetchSource → Nat → Nat → FetchOut
  | [], _, k => ⟨.error "All free proxy list sources exhausted", st, k⟩
  | source :: restSources, sourceIndex, k =>
    let inner : FetchOut :=
      match env k with
      | .error msg => ⟨.error msg, st, k + 1⟩
      | .ok data =>
        let ls := parseProxyLines data
        let proxies := linesToProxies source ls
        let newProxies :=
          proxies.filter (fun p => decide (getProxyId p ∉ st.usedProxies))
        if newProxies.isEmpty then
          fetchFreeAux env st restSources (sourceIndex + 1) (k + 1)
        else
          ⟨.ok (), { st with
              freeProxyList := newProxies
              freeProxyIndex := 0
              currentSourceIndex := sourceIndex
              proxyFetchAttempts := 0 }, k + 1⟩
    match inner with
    | ⟨.ok u, st1, k1⟩ => ⟨.ok u, st1, k1⟩
    | ⟨.error e, st1, k1⟩ =>
      if restSources.isEmpty then
        ⟨.error ("Failed to fetch proxies from all sources: " ++ e), st1, k1⟩
      else
        fetchFreeAux env st restSources (sourceIndex + 1) k1

/-- Entry point of `fetchFreeProxyList(sourceIndex)` (code.js line 152). -/
def fetchFreeProxyList (sources : List FetchSource) (env : FreeEnv)
    (st : PoolState) (k : Nat) (sourceIndex : Nat) : FetchOut :=
  fetchFreeAux env st (sources.drop sourceIndex) sourceIndex k

/-- Result of a next-proxy operation: the returned record or the thrown
error message, the resulting pool state, and the advanced fetch counter. -/
structure NextOut where
  result : Except String Proxy
  st : PoolState
  k : Nat

/-- The successfully returned records of a next-proxy operation as a list
(singleton on success, empty on error). -/
def NextOut.consumed (o : NextOut) : List Proxy :=
  match o.result with
  | .ok p => [p]
  | .error _ => []

/-- The consumption step shared by the tail of `getNextFreeProxy`
(code.js lines 238-255): sequential rotation (`rotateProxies`) returns the
record at the cursor and advances it; otherwise a random index is chosen,
the record is read and then spliced out. Either way the chosen record's
identity is added to `usedProxies` before returning. `rand` supplies
`Math.floor(Math.random() * length)` as `rand % length`. -/
def consumeFree (cfg : Config) (st : PoolState) (k : Nat) (rand : Nat) : NextOut :=
  if cfg.freeRotateProxies then
    let proxy := st.freeProxyList.getD st.freeProxyIndex default
    let st1 := { st with freeProxyIndex := st.freeProxyIndex + 1 }
    ⟨.ok proxy, { st1 with usedProxies := insert (getProxyId proxy) st1.usedProxies }, k⟩
  else
    let i := rand % st.freeProxyList.length
    let proxy := st.freeProxyList.getD i default
    let st1 := { st with freeProxyList := st.freeProxyList.eraseIdx i }
    ⟨.ok proxy, { st1 with usedProxies := insert (getProxyId proxy) st1.usedProxies }, k⟩

/-- The pool-exhausted message of `getNextFreeProxy` (code.js line 226),
with `MAX_FETCH_ATTEMPTS = 5` already interpolated. -/
def freeExhaustedMsg : String :=
  "Unable to fetch new unique proxies after 5 attempts"

/-- `getNextFreeProxy` (code.js lines 219-256). If the pool is empty or
fully consumed: increment `proxyFetchAttempts`, fail with the pool-exhausted
message once it reaches `MAX_FETCH_ATTEMPTS`, otherwise refetch starting
from the source after `currentSourceIndex` (with wraparound), wrapping a
fetch failure as `Failed to fetch new proxies: ...`. Then consume one
record. -/
def getNextFreeProxy (cfg : Config) (env : FreeEnv) (rand : Nat)
    (st : PoolState) (k : Nat) : NextOut :=
  if st.freeProxyList.isEmpty || st.freeProxyList.length ≤ st.freeProxyIndex then
    let st1 := { st with proxyFetchAttempts := st.proxyFetchAttempts + 1 }
    if MAX_FETCH_ATTEMPTS ≤ st1.proxyFetchAttempts then
      ⟨.error freeExhaustedMsg, st1, k⟩
    else
      let nextSourceIndex := (st1.currentSourceIndex + 1) % cfg.freeSources.length
      let f := fetchFreeProxyList cfg.freeSources env st1 k nextSourceIndex
      match f.result with
      | .error e => ⟨.error ("Failed to fetch new proxies: " ++ e), f.st, f.k⟩
      | .ok _ => consumeFree cfg f.st f.k rand
  else
    consumeFree cfg st k rand

/-- The pool-exhausted message of `fetchProxiflyProxies` (code.js line 319),
with `MAX_FETCH_ATTEMPTS = 5` already interpolated. -/
def proxiflyExhaustedMsg : String :=
  "Unable to fetch new unique proxies after 5 attempts. All available proxies may have been used."

/-- `fetchProxiflyProxies` (code.js lines 259-338). The self-recursion at
line 323 is bounded by the `proxyFetchAttempts` counter reaching
`MAX_FETCH_ATTEMPTS`; `gas` makes that bound structural and the entry point
supplies `gas = MAX_FETCH_ATTEMPTS - proxyFetchAttempts`, which keeps the
`gas = 0` branch unreachable (the counter check always fires first). -/
def fetchProxiflyAux (cfg : Config) (env : PEnv) (filterUsed : Bool) :
    Nat → PoolState → Nat → FetchOut
  | gas, st, k =>
    if cfg.proxiflyApiKey = "" then
      ⟨.error "Proxifly API key is required when proxyMode is set to \"proxifly\"", st, k⟩
    else
      match env k with
      | .error msg => ⟨.error msg, st, k + 1⟩
      | .ok result =>
        if result.isEmpty then
          ⟨.error "No proxies returned from Proxifly API", st, k + 1⟩
        else
          let newProxies :=
            if filterUsed then
              result.filter (fun p => decide (getProxyId p ∉ st.usedProxies))
            else result
          if newProxies.isEmpty then
            let st1 := { st with proxyFetchAttempts := st.proxyFetchAttempts + 1 }
            if MAX_FETCH_ATTEMPTS ≤ st1.proxyFetchAttempts then
              ⟨.error proxiflyExhaustedMsg, st1, k + 1⟩
            else
              match gas with
              | 0 => ⟨.error proxiflyExhaustedMsg, st1, k + 1⟩
              | gas1 + 1 => fetchProxiflyAux cfg env filterUsed gas1 st1 (k + 1)
          else
            ⟨.ok (), { st with
                proxiflyProxies := newProxies
                proxiflyCurrentIndex := 0
                proxyFetchAttempts := 0 }, k + 1⟩

/-- Entry point of `fetchProxiflyProxies(filterUsed = true)`. -/
def fetchProxiflyProxies (cfg : Config) (env : PEnv) (filterUsed : Bool)
    (st : PoolState) (k : Nat) : FetchOut :=
  fetchProxiflyAux cfg env filterUsed
    (MAX_FETCH_ATTEMPTS - st.proxyFetchAttempts) st k

/-- The consumption step of `getNextProxiflyProxy` (code.js lines 352-369),
mirroring `consumeFree` on the Proxifly pool. -/
def consumeProxifly (cfg : Config) (st : PoolState) (k : Nat) (rand : Nat) : NextOut :=
  if cfg.proxiflyRotateProxies then
    let proxy := st.proxiflyProxies.getD st.proxiflyCurrentIndex default
    let st1 := { st with proxiflyCurrentIndex := st.proxiflyCurrentIndex + 1 }
    ⟨.ok proxy, { st1 with usedProxies := insert (getProxyId proxy) st1.usedProxies }, k⟩
  else
    let i := rand % st.proxiflyProxies.length
    let proxy := st.proxiflyProxies.getD i default
    let st1 := { st with proxiflyProxies := st.proxiflyProxies.eraseIdx i }
    ⟨.ok proxy, { st1 with usedProxies := insert (getProxyId proxy) st1.usedProxies }, k⟩

/-- `getNextProxiflyProxy` (code.js lines 341-370): refetch (with used-proxy
filtering) when the pool is empty or fully consumed, wrapping a fetch
failure as `Failed to fetch new proxies: ...`, then consume one record. -/
def getNextProxiflyProxy (cfg : Config) (env : PEnv) (rand : Nat)
    (st : PoolState) (k : Nat) : NextOut :=
  if st.proxiflyProxies.isEmpty || st.proxiflyProxies.length ≤ st.proxiflyCurrentIndex then
    let f := fetchProxiflyProxies cfg env true st k
    match f.result with
    | .error e => ⟨.error ("Failed to fetch new proxies: " ++ e), f.st, f.k⟩
    | .ok _ => consumeProxifly cfg f.st f.k rand
  else
    consumeProxifly cfg st k rand

/-- A thrown JavaScript error as observed by the catch block of
`scrapeWithRetry` (code.js lines 835-860): its `message` and `name`. -/
structure ExecError where
  message : String
  name : String
deriving Repr, DecidableEq

/-- What the external Task Executor (browser launch, navigation, page
interaction — code.js lines 560-820) does on one attempt: either some step
throws, or navigation returns a response with the given status and the rest
of the page work succeeds with the given extracted data. The HTTP-status
handling of lines 645-653 stays in the embedding. -/
inductive AttemptOutcome
  | thrown (e : ExecError)
  | response (status : Nat) (title : String) (finalUrl : String)
      (viewCount : String) (contentLength : Nat)
deriving Repr, DecidableEq

/-- The typed result returned by `scrapeWithRetry`: the success record of
code.js lines 823-833 or the failure record of lines 854-859. -/
inductive ScrapeResult
  | ok (status : Nat) (title : String) (finalUrl : String) (userAgent : String)
      (viewCount : String) (contentLength : Nat)
  | fail (error : String) (status : String) (userAgent : String)
deriving Repr, DecidableEq

/-- Observable side effects of a `scrapeWithRetry` run, recorded per
attempt: a pool consumption (`getNext*Proxy` returned this identity) or an
invocation of the Task Executor. -/
inductive Ev
  | consumed (id : String)
  | executed (t : Nat)
deriving Repr, DecidableEq

/-- The effect trace of a `scrapeWithRetry` run: backoff delays slept (in
order), proxies obtained from the pool manager (in order), number of
attempts made, and the event list. -/
structure Trace where
  delays : List Nat
  proxies : List Proxy
  attempts : Nat
  events : List Ev
deriving Repr, DecidableEq

/-- Full outcome of a `scrapeWithRetry` run: result, final pool state,
advanced fetch counters (free-list and Proxifly), advanced attempt counter,
and the effect trace. -/
structure ScrapeOut where
  result : ScrapeResult
  st : PoolState
  kf : Nat
  kp : Nat
  t : Nat
  trace : Trace

/-- Per-attempt oracles: the user agent drawn by `getRandomUserAgent`, the
Task Executor outcome, and the `Math.random()` draw used for random proxy
selection, each indexed by the attempt counter. -/
structure Oracles where
  ua : Nat → String
  outcome : Nat → AttemptOutcome
  rand : Nat → Nat

/-- Check whether `sub` is a prefix of `l` (helper for substring search). -/
def startsWithChars : List Char → List Char → Bool
  | [], _ => true
  | _ :: _, [] => false
  | a :: as, b :: bs => a = b && startsWithChars as bs

/-- Check whether `sub` occurs as a contiguous substring of the second
list. -/
def hasSubChars (sub : List Char) : List Char → Bool
  | [] => sub.isEmpty
  | c :: rest => startsWithChars sub (c :: rest) || hasSubChars sub rest

/-- JavaScript `hay.includes(sub)` for the error classification of
code.js lines 841-842. -/
def strIncludes (hay sub : String) : Bool :=
  hasSubChars sub.toList hay.toList

/-- Find the digits of the first `HTTP <digits>` occurrence in a character
list (the regex `/HTTP (\d+)/` of code.js line 857). -/
def httpStatusChars : List Char → Option (List Char)
  | [] => none
  | c :: rest =>
    if startsWithChars "HTTP ".toList (c :: rest) then
      let ds := ((c :: rest).drop 5).takeWhile Char.isDigit
      if ds.isEmpty then httpStatusChars rest else some ds
    else httpStatusChars rest

/-- `error.message.match(/HTTP (\d+)/)?.[1] || 'Unknown'` (code.js line 857). -/
def httpStatusOf (msg : String) : String :=
  match httpStatusChars msg.toList with
  | some ds => ⟨ds⟩
  | none => "Unknown"

/-- The proxy-format validation of `getBrowserOptions` (code.js lines
424-433): a Proxifly record with neither an `ipPort` nor both `ip` and
`port` makes the launch throw `Invalid proxy format from Proxifly`. -/
def badProxyShape : Option Proxy → Bool
  | none => false
  | some p => p.ipPort.isNone && (p.ip.isNone || p.port.isNone)

/-- Outcome of one `scrapeWithRetry` try block: the try result, the pool
state, the advanced fetch counters, and the records consumed and events
emitted by this attempt. -/
structure AttemptOut where
  result : Except ExecError ScrapeResult
  st : PoolState
  kf : Nat
  kp : Nat
  consumed : List Proxy
  evs : List Ev

/-- The try block of one `scrapeWithRetry` attempt (code.js lines 548-834):
check the user agent (line 549), obtain a proxy according to `proxyMode`
(lines 553-558), validate its shape inside
`puppeteer.launch(getBrowserOptions ...)` (lines 424-433, 560), then hand
over to the Task Executor outcome, applying the HTTP status policy of
lines 645-653. -/
def scrapeAttempt (cfg : Config) (o : Oracles) (fenv : FreeEnv)
    (penv : PEnv) (retryCount : Nat) (st : PoolState) (kf kp t : Nat) : AttemptOut :=
  let userAgent := o.ua t
  if userAgent = "" then
    ⟨.error ⟨"No suitable user agent found", "Error"⟩, st, kf, kp, [], []⟩
  else
    let acq : Except String (Option Proxy) × PoolState × Nat × Nat :=
      if cfg.proxyMode = "proxifly" then
        let n := getNextProxiflyProxy cfg penv (o.rand t) st kp
        match n.result with
        | .ok p => (.ok (some p), n.st, kf, n.k)
        | .error e => (.error e, n.st, kf, n.k)
      else if cfg.proxyMode = "free-proxy-list" then
        let n := getNextFreeProxy cfg fenv (o.rand t) st kf
        match n.result with
        | .ok p => (.ok (some p), n.st, n.k, kp)
        | .error e => (.error e, n.st, n.k, kp)
      else (.ok none, st, kf, kp)
    match acq with
    | (.error e, st1, kf1, kp1) => ⟨.error ⟨e, "Error"⟩, st1, kf1, kp1, [], []⟩
    | (.ok optProxy, st1, kf1, kp1) =>
      let consumed : List Proxy := match optProxy with | some p => [p] | none => []
      let consumeEvs : List Ev :=
        match optProxy with | some p => [Ev.consumed (getProxyId p)] | none => []
      if cfg.proxyMode = "proxifly" && badProxyShape optProxy then
        ⟨.error ⟨"Invalid proxy format from Proxifly", "Error"⟩, st1, kf1, kp1,
          consumed, consumeEvs⟩
      else
        let evs := consumeEvs ++ [Ev.executed t]
        match o.outcome t with
        | .thrown e => ⟨.error e, st1, kf1, kp1, consumed, evs⟩
        | .response status title finalUrl viewCount contentLength =>
          if 400 ≤ status then
            if (status = 429 ∨ 500 ≤ status) ∧ retryCount < cfg.maxRetries then
              ⟨.error ⟨"HTTP " ++ toString status ++ " - Retry available", "Error"⟩,
                st1, kf1, kp1, consumed, evs⟩
            else
              ⟨.error ⟨"HTTP " ++ toString status, "Error"⟩, st1, kf1, kp1, consumed, evs⟩
          else
            ⟨.ok (.ok status title finalUrl userAgent viewCount contentLength),
              st1, kf1, kp1, consumed, evs⟩

/-- `scrapeWithRetry` (code.js lines 538-861): run the try block
(`scrapeAttempt`), then the catch block (lines 835-860) classifies a
thrown error by `message.includes('429')`, `message.includes('5')` and
`name === 'TimeoutError'`; a retryable error with attempts left sleeps
`backoffDelays[retryCount]` and re-enters with `retryCount + 1`, anything
else returns the typed failure record. The self-recursion at line 850 is
bounded by `retryCount` reaching `maxRetries`; `gas` makes that bound
structural and the entry point supplies `gas = maxRetries + 1 - retryCount`,
keeping the `gas = 0` branch unreachable. -/
def scrapeWithRetryAux (cfg : Config) (o : Oracles) (fenv : FreeEnv)
    (penv : PEnv) (url : String) :
    Nat → Nat → PoolState → Nat → Nat → Nat → ScrapeOut
  | gas, retryCount, st, kf, kp, t =>
    match scrapeAttempt cfg o fenv penv retryCount st kf kp t with
    | ⟨tryResult, st1, kf1, kp1, consumed, evs⟩ =>
      match tryResult with
      | .ok res => ⟨res, st1, kf1, kp1, t + 1, ⟨[], consumed, 1, evs⟩⟩
      | .error e =>
        let isRateLimit := strIncludes e.message "429"
        let isServerError := strIncludes e.message "5"
        let isTimeout := e.name == "TimeoutError"
        if (isRateLimit || isServerError || isTimeout) && decide (retryCount < cfg.maxRetries) then
          let delay := cfg.backoffDelays.getD retryCount 0
          match gas with
          | 0 =>
            ⟨.fail e.message (httpStatusOf e.message) (o.ua t), st1, kf1, kp1, t + 1,
              ⟨[], consumed, 1, evs⟩⟩
          | gas1 + 1 =>
            match scrapeWithRetryAux cfg o fenv penv url gas1 (retryCount + 1)
                st1 kf1 kp1 (t + 1) with
            | ⟨res1, st2, kf2, kp2, t2, ⟨delays1, proxies1, attempts1, events1⟩⟩ =>
              ⟨res1, st2, kf2, kp2, t2,
                ⟨delay :: delays1, consumed ++ proxies1,
                  1 + attempts1, evs ++ events1⟩⟩
        else
          ⟨.fail e.message (httpStatusOf e.message) (o.ua t), st1, kf1, kp1, t + 1,
            ⟨[], consumed, 1, evs⟩⟩

/-- Entry point of `scrapeWithRetry(url, retryCount)`. -/
def scrapeWithRetry (cfg : Config) (o : Oracles) (fenv : FreeEnv) (penv : PEnv)
    (url : String) (retryCount : Nat) (st : PoolState) (kf kp t : Nat) : ScrapeOut :=
  scrapeWithRetryAux cfg o fenv penv url (cfg.maxRetries + 1 - retryCount)
    retryCount st kf kp t

/-- The `results` tally of the dispatchers (code.js lines 887-893 and
941-959): successes, failures, total. -/
structure Stats where
  successful : Nat
  failed : Nat
  total : Nat
deriving Repr, DecidableEq

/-- Fold dispatcher results into `Stats` the way both run loops do: every
terminal result increments `total` and exactly one of `successful`/`failed`. -/
def tallyStats (results : List ScrapeResult) : Stats :=
  results.foldl
    (fun s r =>
      match r with
      | .ok .. => { s with successful := s.successful + 1, total := s.total + 1 }
      | .fail .. => { s with failed := s.failed + 1, total := s.total + 1 })
    ⟨0, 0, 0⟩

/-- Result of the startup proxy initialization shared verbatim by both
dispatchers (code.js lines 899-923 and 1025-1049). -/
structure StartupOut where
  cfg : Config
  st : PoolState
  kf : Nat
  kp : Nat

/-- The startup proxy initialization (code.js lines 899-923, repeated at
1025-1049): in `proxifly` mode run `fetchProxiflyProxies()` (its default
`filterUsed = true`), in `free-proxy-list` mode run `fetchFreeProxyList(0)`;
if the initial fetch throws, the error is caught and `CONFIG.proxyMode` is
mutated to `'none'`. Runs from the module state `initState` of the main
thread. -/
def startupProxyFetch (cfg : Config) (fenv : FreeEnv) (penv : PEnv) : StartupOut :=
  if cfg.proxyMode = "proxifly" then
    let f := fetchProxiflyProxies cfg penv true initState 0
    match f.result with
    | .ok _ => ⟨cfg, f.st, 0, f.k⟩
    | .error _ => ⟨{ cfg with proxyMode := "none" }, f.st, 0, f.k⟩
  else if cfg.proxyMode = "free-proxy-list" then
    let f := fetchFreeProxyList cfg.freeSources fenv initState 0 0
    match f.result with
    | .ok _ => ⟨cfg, f.st, f.k, 0⟩
    | .error _ => ⟨{ cfg with proxyMode := "none" }, f.st, f.k, 0⟩
  else ⟨cfg, initState, 0, 0⟩

/-- The sequential request loop (code.js lines 1052-1071): `totalRequests`
iterations, each a fresh `scrapeWithRetry(url)` carried out to a terminal
result before the next starts. Returns the per-unit outcomes in order. -/
def runSequentialLoop (cfg : Config) (o : Oracles) (fenv : FreeEnv)
    (penv : PEnv) (url : String) :
    Nat → PoolState → Nat → Nat → Nat → List ScrapeOut
  | 0, _, _, _, _ => []
  | n + 1, st, kf, kp, t =>
    let out := scrapeWithRetry cfg o fenv penv url 0 st kf kp t
    out :: runSequentialLoop cfg o fenv penv url n out.st out.kf out.kp out.t

/-- Outcome of a whole dispatcher run: the final `CONFIG` (its `proxyMode`
possibly mutated by the startup fallback), the run statistics, and every
unit's outcome. -/
structure RunOut where
  cfg : Config
  stats : Stats
  outs : List ScrapeOut

/-- `runSequentialScraping` (code.js lines 1011-1088): startup proxy
initialization, then the strictly sequential loop, then the stats report. -/
def runSequentialScraping (cfg : Config) (o : Oracles) (fenv : FreeEnv)
    (penv : PEnv) (url : String) : RunOut :=
  let s := startupProxyFetch cfg fenv penv
  let outs := runSequentialLoop s.cfg o fenv penv url s.cfg.totalRequests s.st s.kf s.kp 0
  ⟨s.cfg, tallyStats (outs.map ScrapeOut.result), outs⟩

/-- One worker thread (code.js lines 864-880 together with the `new Worker`
at 934-939): `worker_threads` re-evaluates the whole module in the new
thread, so the worker runs with the source-literal `CONFIG` and a fresh copy
of the module globals (`initState`) — not with the coordinating thread's
possibly-mutated `CONFIG` or its pool state. The worker entry calls
`scrapeWithRetry(workerData.url)` and posts its typed result; since
`scrapeWithRetry` always returns (never throws), the entry's catch never
fires. -/
def workerThreadRun (cfgSource : Config) (o : Oracles) (fenv : FreeEnv)
    (penv : PEnv) (url : String) : ScrapeOut :=
  scrapeWithRetry cfgSource o fenv penv url 0 initState 0 0 0

/-- `Math.ceil(total / conc)` on naturals (code.js line 927). -/
def ceilDiv (a b : Nat) : Nat := (a + b - 1) / b

/-- The request numbers launched in batch `b` (code.js lines 930-932): the
inner loop over `i < maxConcurrent` breaks once
`batch * maxConcurrent + i ≥ totalRequests`. -/
def batchWorkerIds (total conc b : Nat) : List Nat :=
  ((List.range conc).filter (fun i => b * conc + i < total)).map (fun i => b * conc + i)

/-- All batches of the concurrent dispatcher's outer loop (code.js line
927): `ceil(totalRequests / maxConcurrent)` batches. -/
def allBatches (total conc : Nat) : List (List Nat) :=
  (List.range (ceilDiv total conc)).map (batchWorkerIds total conc)

/-- `runConcurrentScraping` (code.js lines 883-1008): startup proxy
initialization in the main thread, then batched worker launches. Worker `w`
gets its own per-thread oracles and, crucially, the source-literal `cfg`
and fresh module globals (module re-evaluation), not the main thread's
mutated `CONFIG`. Every worker resolves with exactly one message that is
folded into the stats (the `worker.on('message')`/`on('error')` handlers of
lines 941-959 both resolve and count). -/
def runConcurrentScraping (cfg : Config) (o : Nat → Oracles)
    (fenv : Nat → FreeEnv) (penv : Nat → PEnv)
    (fenvMain : FreeEnv) (penvMain : PEnv) (url : String) : RunOut :=
  let s := startupProxyFetch cfg fenvMain penvMain
  let outs := ((allBatches cfg.totalRequests cfg.maxConcurrent).flatten).map
    (fun w => workerThreadRun cfg (o w) (fenv w) (penv w) url)
  ⟨s.cfg, tallyStats (outs.map ScrapeOut.result), outs⟩

deriving instance DecidableEq for Except

/-- A single next-proxy call with a given `Math.random()` draw; a script of
calls is a list of draws. Accumulates each call's result and the
successfully returned records, in order. -/
structure CallAcc where
  st : PoolState
  k : Nat
  results : List (Except String Proxy)
  returned : List Proxy

/-- Run a sequence of `getNextFreeProxy` calls (one per random draw),
threading the module state exactly as consecutive calls in a
`free-proxy-list`-mode run do. -/
def runFreeCalls (cfg : Config) (env : FreeEnv) : List Nat → CallAcc → CallAcc
  | [], acc => acc
  | r :: rest, acc =>
    let out := getNextFreeProxy cfg env r acc.st acc.k
    runFreeCalls cfg env rest
      ⟨out.st, out.k, acc.results ++ [out.result], acc.returned ++ out.consumed⟩

/-- Run a sequence of `getNextProxiflyProxy` calls, threading the module
state exactly as consecutive calls in a `proxifly`-mode run do. -/
def runProxiflyCalls (cfg : Config) (env : PEnv) : List Nat → CallAcc → CallAcc
  | [], acc => acc
  | r :: rest, acc =>
    let out := getNextProxiflyProxy cfg env r acc.st acc.k
    runProxiflyCalls cfg env rest
      ⟨out.st, out.k, acc.results ++ [out.result], acc.returned ++ out.consumed⟩

/-- Registry soundness for a list of already-returned records: pairwise
distinct identities, all registered. -/
def RegOk (used : Finset String) (returned : List Proxy) : Prop :=
  (returned.map getProxyId).Nodup ∧ ∀ p ∈ returned, getProxyId p ∈ used

/-- The unconsumed part of a pool carries pairwise distinct identities, none
of them registered yet. -/
def PoolFresh (used : Finset String) (pool : List Proxy) (cursor : Nat) : Prop :=
  ((pool.drop cursor).map getProxyId).Nodup ∧
    ∀ p ∈ pool.drop cursor, getProxyId p ∉ used

/-- The free-list environment never delivers a listing with a duplicated
line (duplicate identity). -/
def DupFreeFreeEnv (env : FreeEnv) : Prop :=
  ∀ k s, env k = .ok s → (parseProxyLines s).Nodup

/-- The Proxifly environment never delivers a batch with two records of the
same identity. -/
def DupFreePEnv (env : PEnv) : Prop :=
  ∀ k l, env k = .ok l → (l.map getProxyId).Nodup

/-- The per-mode invariant of a `free-proxy-list` run: sound registry,
fresh unconsumed pool, and a cursor pinned at 0 under random consumption. -/
def FreeInv (cfg : Config) (st : PoolState) (returned : List Proxy) : Prop :=
  RegOk st.usedProxies returned ∧
  PoolFresh st.usedProxies st.freeProxyList st.freeProxyIndex ∧
  (cfg.freeRotateProxies = false → st.freeProxyIndex = 0)

/-- The per-mode invariant of a `proxifly` run. -/
def ProxiflyInv (cfg : Config) (st : PoolState) (returned : List Proxy) : Prop :=
  RegOk st.usedProxies returned ∧
  PoolFresh st.usedProxies st.proxiflyProxies st.proxiflyCurrentIndex ∧
  (cfg.proxiflyRotateProxies = false → st.proxiflyCurrentIndex = 0)

/-- A free-proxy-list environment whose listing repeats one line: the CDN
body `1.1.1.1:80\n1.1.1.1:80`. -/
def c1Env : FreeEnv := fun _ => .ok "1.1.1.1:80\n1.1.1.1:80"

/-- A duplicate-free free-proxy-list environment used to instantiate the
amended C1 theorem. -/
def c1WEnv : FreeEnv := fun _ => .ok "10.0.0.1:80\n10.0.0.2:80"

/-- The failure classification of the catch block (code.js lines 841-845):
an error is retryable when its message contains `429` (rate limited) or
`5` (server error) or its name is `TimeoutError`. -/
def retryableErr (e : ExecError) : Bool :=
  strIncludes e.message "429" || strIncludes e.message "5" || (e.name == "TimeoutError")

/-- The configuration of the C4 witness run: `maxRetries = 3`,
`backoffDelays = [100, 300, 900]`, no proxy. -/
def c4Cfg : Config :=
  { defaultConfig with maxRetries := 3, backoffDelays := [100, 300, 900], proxyMode := "none" }

/-- Oracles for the C4 witness run: every attempt times out. -/
def c4Oracles : Oracles :=
  ⟨fun _ => "UA", fun _ => .thrown ⟨"Navigation timeout exceeded", "TimeoutError"⟩, fun _ => 0⟩

/-- Oracles for the C5 witness run: the single attempt throws a hard
non-retryable executor failure. -/
def c5Oracles : Oracles :=
  ⟨fun _ => "UA", fun _ => .thrown ⟨"Invalid proxy format from Proxifly", "Error"⟩, fun _ => 0⟩

/-- The wrapped error a `getNextFreeProxy` refetch produces when every
source yields zero unused candidates (code.js lines 156, 213, 234). -/
def freeFetchFailMsg : String :=
  "Failed to fetch new proxies: Failed to fetch proxies from all sources: All free proxy list sources exhausted"

/-- A free-proxy-list environment in which every source fetch succeeds but
delivers zero candidates (empty body). -/
def c3Env : FreeEnv := fun _ => .ok ""

/-- Used-registry and environment for the Proxifly half of the C3 witness:
the API always returns the single proxy `7.7.7.7:80`, already used. -/
def c3PState : PoolState := { initState with usedProxies := {"7.7.7.7:80"} }

/-- The Proxifly environment for the C3 witness. -/
def c3PEnv : PEnv := fun _ => .ok [{ ipPort := some "7.7.7.7:80" }]

/-- The CDN listing both workers of the C2 run receive. -/
def c2FEnv : FreeEnv := fun _ => .ok "2.2.2.2:80"

/-- Per-worker executor oracles for the C2 run (both workers succeed). -/
def c2Oracles (w : Nat) : Oracles :=
  ⟨fun _ => "UA", fun _ => .response 200 ("title" ++ toString w) "finalUrl" "1M views" 100,
   fun _ => 0⟩

/-- Oracles of the C7 witness run: every attempt fails non-retryably, so
every unit exhausts to terminal failure, yet the run completes. -/
def c7Oracles : Oracles :=
  ⟨fun _ => "UA", fun _ => .thrown ⟨"Hard executor failure", "Error"⟩, fun _ => 0⟩

/-- Configuration of the C6 counterexample: authenticated pooling selected,
no credential, two units, sequential dispatch. -/
def c6Cfg : Config :=
  { defaultConfig with
    proxyMode := "proxifly"
    proxiflyApiKey := ""
    totalRequests := 2
    maxConcurrent := 1 }

/-- Executor oracles of the C6 counterexample: every unit succeeds. -/
def c6Oracles : Oracles :=
  ⟨fun _ => "UA", fun _ => .response 200 "t" "u" "v" 5, fun _ => 0⟩

/-- An event list made of attempt blocks in which every invocation of the
Task Executor is immediately preceded by the pool consumption of that
attempt's fresh proxy. A final lone consumption is allowed: it is an
attempt whose record was consumed but whose launch-time validation threw
before the Task Executor ran (the Proxifly shape check of code.js lines
424-433), so there is no executor invocation to pair it with. -/
def isConsumeExecSeq : List Ev → Bool
  | [] => true
  | [.consumed _] => true
  | .consumed _ :: .executed _ :: rest => isConsumeExecSeq rest
  | _ => false

/-- Configuration of the C10 counterexample: pooled free-list mode, one
unit, concurrent dispatch. -/
def c10Cfg : Config :=
  { defaultConfig with
    totalRequests := 1
    maxConcurrent := 2 }

/-- Main-thread listing environment of the C10 counterexample: the startup
fetch always throws. -/
def c10FailEnv : FreeEnv := fun _ => .error "HTTP 404"

/-- Worker-thread listing environment of the C10 counterexample: the
re-evaluated module fetches a one-record listing. -/
def c10WEnv : FreeEnv := fun _ => .ok "4.4.4.4:80"

/-- Executor oracles of the C10 counterexample: the unit succeeds. -/
def c10Oracles : Oracles :=
  ⟨fun _ => "UA", fun _ => .response 200 "t" "u" "v" 5, fun _ => 0⟩

/-- Listing environment of the C9 counterexample: every fetch delivers the
same endpoint twice. -/
def c9Env : FreeEnv := fun _ => .ok "3.3.3.3:80\n3.3.3.3:80"

/-- Executor oracles of the C9 counterexample: the first attempt times out
(retryable), the retry succeeds. -/
def c9Oracles : Oracles :=
  ⟨fun _ => "UA",
   fun t => if t = 0 then .thrown ⟨"Nav timeout", "TimeoutError"⟩
            else .response 200 "t" "u" "v" 5,
   fun _ => 0⟩

/-- A duplicate-free listing environment for the C9 witness. -/
def c9WEnv : FreeEnv := fun _ => .ok "9.9.9.1:80\n9.9.9.2:80"

/-- A short-schedule configuration for the C6 witness: 1 delay configured
against 2 allowed retries, no proxy. -/
def c6ShortCfg : Config :=
  { defaultConfig with maxRetries := 2, backoffDelays := [100], proxyMode := "none" }

/-- Oracles for the short-schedule half of the C6 witness: every attempt
times out (retryable). -/
def c6RetryOracles : Oracles :=
  ⟨fun _ => "UA", fun _ => .thrown ⟨"Navigation timeout exceeded", "TimeoutError"⟩,
   fun _ => 0⟩

/-- An authenticated Proxifly configuration for the C9 witness. -/
def c9ProxiflyCfg : Config :=
  { defaultConfig with proxyMode := "proxifly", proxiflyApiKey := "k" }

/-- A duplicate-free Proxifly batch environment for the C9 witness. -/
def c9PEnv : PEnv :=
  fun _ => .ok [{ ipPort := some "9.9.9.3:80" }, { ipPort := some "9.9.9.4:80" }]

/-- A credential-less Proxifly configuration whose startup fetch throws,
for the C10 witness's concurrent proxifly instantiation. -/
def c10PCfg : Config :=
  { defaultConfig with proxyMode := "proxifly" }

/-- The missing-credential error of `fetchProxiflyProxies`
(code.js line 261). -/
def proxiflyKeyMsg : String :=
  "Proxifly API key is required when proxyMode is set to \"proxifly\""

theorem map_getProxyId_linesToProxies (src : FetchSource) (ls : List String) :
    (linesToProxies src ls).map getProxyId = ls := by
  simp only [linesToProxies, List.map_map]
  have : (getProxyId ∘ fun l =>
      ({ ipPort := some l, protocol := src.protocol, source := src.url } : Proxy)) = id := by
    funext l
    simp [getProxyId, Function.comp]
  rw [this, List.map_id]

theorem poolFresh_filter (used : Finset String) (ps : List Proxy)
    (hnd : (ps.map getProxyId).Nodup) :
    PoolFresh used (ps.filter (fun p => decide (getProxyId p ∉ used))) 0 := by
  unfold PoolFresh
  simp only [List.drop_zero]
  constructor
  · exact hnd.sublist ((ps.filter_sublist).map getProxyId)
  · intro p hp
    simp only [List.mem_filter, decide_eq_true_eq] at hp
    exact hp.2

theorem map_eraseIdx_comm {α β : Type} (f : α → β) :
    ∀ (l : List α) (i : Nat), (l.eraseIdx i).map f = (l.map f).eraseIdx i
  | [], _ => rfl
  | _ :: _, 0 => rfl
  | a :: l, i + 1 => by
    simp [List.eraseIdx_cons_succ, map_eraseIdx_comm f l i]

theorem nodup_getElem_not_mem_eraseIdx {α : Type} :
    ∀ (l : List α) (i : Nat) (h : i < l.length), l.Nodup → l[i] ∉ l.eraseIdx i
  | a :: t, 0, _, hnd => by
    simp only [List.eraseIdx_zero, List.getElem_cons_zero, List.dropLast]
    simpa [List.eraseIdx] using (List.nodup_cons.mp hnd).1
  | a :: t, i + 1, h, hnd => by
    have ht : i < t.length := by simpa using h
    have h1 := (List.nodup_cons.mp hnd).1
    have h2 := (List.nodup_cons.mp hnd).2
    simp only [List.getElem_cons_succ, List.eraseIdx_cons_succ, List.mem_cons]
    push_neg
    constructor
    · intro he
      exact h1 (he ▸ t.getElem_mem ht)
    · exact nodup_getElem_not_mem_eraseIdx t i ht h2

/-- On success, `fetchFreeProxyList` leaves the registry and the Proxifly
pool untouched, resets the free cursor, and installs a nonempty pool that is
fresh for the current registry (and duplicate-free, given a duplicate-free
environment). -/
theorem fetchFreeAux_ok (env : FreeEnv) (henv : DupFreeFreeEnv env)
    (st : PoolState) :
    ∀ (srcs : List FetchSource) (si k : Nat),
      (fetchFreeAux env st srcs si k).result = .ok () →
      (fetchFreeAux env st srcs si k).st.usedProxies = st.usedProxies ∧
      (fetchFreeAux env st srcs si k).st.freeProxyIndex = 0 ∧
      (fetchFreeAux env st srcs si k).st.freeProxyList ≠ [] ∧
      PoolFresh st.usedProxies (fetchFreeAux env st srcs si k).st.freeProxyList 0 ∧
      (fetchFreeAux env st srcs si k).st.proxiflyProxies = st.proxiflyProxies ∧
      (fetchFreeAux env st srcs si k).st.proxiflyCurrentIndex = st.proxiflyCurrentIndex := by
  intro srcs
  induction srcs with
  | nil => intro si k h; simp [fetchFreeAux] at h
  | cons source rest ih =>
    intro si k h
    rw [fetchFreeAux] at h ⊢
    rcases henvk : env k with msg | data
    · -- transport error: lands in the catch
      simp only [henvk] at h ⊢
      rcases rest with _ | ⟨r1, rs⟩
      · simp at h
      · rw [if_neg (by simp)] at h ⊢
        exact ih (si + 1) (k + 1) h
    · -- got data
      simp only [henvk] at h ⊢
      by_cases hemp : ((linesToProxies source (parseProxyLines data)).filter
          (fun p => decide (getProxyId p ∉ st.usedProxies))).isEmpty = true
      · -- empty after filter: recurse; an error there lands in the catch
        rw [if_pos hemp] at h ⊢
        rcases hout : fetchFreeAux env st rest (si + 1) (k + 1) with ⟨res, st1, k1⟩
        rw [hout] at h
        rcases res with e | u
        · -- recursion failed; catch retries the next source or gives up
          dsimp only at h ⊢
          rcases rest with _ | ⟨r1, rs⟩
          · simp at h
          · rw [if_neg (by simp)] at h ⊢
            exact ih (si + 1) k1 h
        · -- recursion succeeded: its state is the answer
          dsimp only at h ⊢
          have h2 := ih (si + 1) (k + 1)
          rw [hout] at h2
          exact h2 rfl
      · -- nonempty: success with the filtered pool installed
        rw [if_neg hemp] at h ⊢
        dsimp only at h ⊢
        refine ⟨rfl, rfl, ?_, ?_, rfl, rfl⟩
        · intro hnil
          exact hemp (by rw [hnil]; rfl)
        · have hnd : ((linesToProxies source (parseProxyLines data)).map getProxyId).Nodup := by
            rw [map_getProxyId_linesToProxies]
            exact henv k data henvk
          exact poolFresh_filter _ _ hnd

/-- On failure, `fetchFreeProxyList` leaves the module state untouched (the
globals are only assigned in the success branch, code.js lines 196-199). -/
theorem fetchFreeAux_error (env : FreeEnv) (st : PoolState) :
    ∀ (srcs : List FetchSource) (si k : Nat) (e : String),
      (fetchFreeAux env st srcs si k).result = .error e →
      (fetchFreeAux env st srcs si k).st = st := by
  intro srcs
  induction srcs with
  | nil => intro si k e _; rfl
  | cons source rest ih =>
    intro si k e h
    rw [fetchFreeAux] at h ⊢
    rcases henvk : env k with msg | data
    · simp only [henvk] at h ⊢
      rcases rest with _ | ⟨r1, rs⟩
      · rfl
      · rw [if_neg (by simp)] at h ⊢
        exact ih (si + 1) (k + 1) e h
    · simp only [henvk] at h ⊢
      by_cases hemp : ((linesToProxies source (parseProxyLines data)).filter
          (fun p => decide (getProxyId p ∉ st.usedProxies))).isEmpty = true
      · rw [if_pos hemp] at h ⊢
        rcases hout : fetchFreeAux env st rest (si + 1) (k + 1) with ⟨res, st1, k1⟩
        rw [hout] at h
        rcases res with e2 | u
        · have hst : st1 = st := by
            have h2 := ih (si + 1) (k + 1) e2 (by rw [hout])
            rw [hout] at h2
            exact h2
          dsimp only at h ⊢
          rcases rest with _ | ⟨r1, rs⟩
          · exact hst
          · rw [if_neg (by simp)] at h ⊢
            exact ih (si + 1) k1 e h
        · dsimp only at h
          exact absurd h (by simp)
      · rw [if_neg hemp] at h
        dsimp only at h
        exact absurd h (by simp)

/-- On success, `fetchProxiflyProxies` leaves the registry and the free-list
pool untouched, resets the Proxifly cursor, and installs a nonempty pool
that is fresh for the current registry (and duplicate-free, given a
duplicate-free environment). -/
theorem fetchProxiflyAux_ok (cfg : Config) (env : PEnv) (henv : DupFreePEnv env) :
    ∀ (gas : Nat) (st : PoolState) (k : Nat),
      (fetchProxiflyAux cfg env true gas st k).result = .ok () →
      (fetchProxiflyAux cfg env true gas st k).st.usedProxies = st.usedProxies ∧
      (fetchProxiflyAux cfg env true gas st k).st.proxiflyCurrentIndex = 0 ∧
      (fetchProxiflyAux cfg env true gas st k).st.proxiflyProxies ≠ [] ∧
      PoolFresh st.usedProxies (fetchProxiflyAux cfg env true gas st k).st.proxiflyProxies 0 ∧
      (fetchProxiflyAux cfg env true gas st k).st.freeProxyList = st.freeProxyList ∧
      (fetchProxiflyAux cfg env true gas st k).st.freeProxyIndex = st.freeProxyIndex := by
  intro gas
  induction gas with
  | zero =>
    intro st k h
    rw [fetchProxiflyAux] at h ⊢
    by_cases hkey : cfg.proxiflyApiKey = ""
    · rw [if_pos hkey] at h; exact absurd h (by simp)
    · rw [if_neg hkey] at h ⊢
      rcases henvk : env k with msg | result
      · simp only [henvk] at h; exact absurd h (by simp)
      · simp only [henvk, if_true] at h ⊢
        by_cases hraw : result.isEmpty = true
        · rw [if_pos hraw] at h; exact absurd h (by simp)
        · rw [if_neg hraw] at h ⊢
          by_cases hemp : (result.filter
              (fun p => decide (getProxyId p ∉ st.usedProxies))).isEmpty = true
          · rw [if_pos hemp] at h
            by_cases hmax : MAX_FETCH_ATTEMPTS ≤ st.proxyFetchAttempts + 1
            · rw [if_pos hmax] at h; exact absurd h (by simp)
            · rw [if_neg hmax] at h; exact absurd h (by simp)
          · rw [if_neg hemp] at h ⊢
            dsimp only at h ⊢
            refine ⟨rfl, rfl, ?_, ?_, rfl, rfl⟩
            · intro hnil
              exact hemp (by rw [hnil]; rfl)
            · exact poolFresh_filter _ _ (henv k result henvk)
  | succ gas1 ih =>
    intro st k h
    rw [fetchProxiflyAux] at h ⊢
    by_cases hkey : cfg.proxiflyApiKey = ""
    · rw [if_pos hkey] at h; exact absurd h (by simp)
    · rw [if_neg hkey] at h ⊢
      rcases henvk : env k with msg | result
      · simp only [henvk] at h; exact absurd h (by simp)
      · simp only [henvk, if_true] at h ⊢
        by_cases hraw : result.isEmpty = true
        · rw [if_pos hraw] at h; exact absurd h (by simp)
        · rw [if_neg hraw] at h ⊢
          by_cases hemp : (result.filter
              (fun p => decide (getProxyId p ∉ st.usedProxies))).isEmpty = true
          · rw [if_pos hemp] at h ⊢
            by_cases hmax : MAX_FETCH_ATTEMPTS ≤ st.proxyFetchAttempts + 1
            · rw [if_pos hmax] at h; exact absurd h (by simp)
            · rw [if_neg hmax] at h ⊢
              exact ih { st with proxyFetchAttempts := st.proxyFetchAttempts + 1 } (k + 1) h
          · rw [if_neg hemp] at h ⊢
            dsimp only at h ⊢
            refine ⟨rfl, rfl, ?_, ?_, rfl, rfl⟩
            · intro hnil
              exact hemp (by rw [hnil]; rfl)
            · exact poolFresh_filter _ _ (henv k result henvk)

/-- On failure, `fetchProxiflyProxies` can only have bumped the
`proxyFetchAttempts` counter: registry and pools are untouched. -/
theorem fetchProxiflyAux_error (cfg : Config) (env : PEnv) :
    ∀ (gas : Nat) (st : PoolState) (k : Nat) (e : String),
      (fetchProxiflyAux cfg env true gas st k).result = .error e →
      (fetchProxiflyAux cfg env true gas st k).st.usedProxies = st.usedProxies ∧
      (fetchProxiflyAux cfg env true gas st k).st.proxiflyProxies = st.proxiflyProxies ∧
      (fetchProxiflyAux cfg env true gas st k).st.proxiflyCurrentIndex = st.proxiflyCurrentIndex ∧
      (fetchProxiflyAux cfg env true gas st k).st.freeProxyList = st.freeProxyList ∧
      (fetchProxiflyAux cfg env true gas st k).st.freeProxyIndex = st.freeProxyIndex := by
  intro gas
  induction gas with
  | zero =>
    intro st k e h
    rw [fetchProxiflyAux] at h ⊢
    by_cases hkey : cfg.proxiflyApiKey = ""
    · rw [if_pos hkey]; exact ⟨rfl, rfl, rfl, rfl, rfl⟩
    · rw [if_neg hkey] at h ⊢
      rcases henvk : env k with msg | result
      · simp [henvk]
      · simp only [henvk, if_true] at h ⊢
        by_cases hraw : result.isEmpty = true
        · rw [if_pos hraw]; exact ⟨rfl, rfl, rfl, rfl, rfl⟩
        · rw [if_neg hraw] at h ⊢
          by_cases hemp : (result.filter
              (fun p => decide (getProxyId p ∉ st.usedProxies))).isEmpty = true
          · rw [if_pos hemp]
            by_cases hmax : MAX_FETCH_ATTEMPTS ≤ st.proxyFetchAttempts + 1
            · rw [if_pos hmax]; exact ⟨rfl, rfl, rfl, rfl, rfl⟩
            · rw [if_neg hmax]; exact ⟨rfl, rfl, rfl, rfl, rfl⟩
          · rw [if_neg hemp] at h
            exact absurd h (by simp)
  | succ gas1 ih =>
    intro st k e h
    rw [fetchProxiflyAux] at h ⊢
    by_cases hkey : cfg.proxiflyApiKey = ""
    · rw [if_pos hkey]; exact ⟨rfl, rfl, rfl, rfl, rfl⟩
    · rw [if_neg hkey] at h ⊢
      rcases henvk : env k with msg | result
      · simp [henvk]
      · simp only [henvk, if_true] at h ⊢
        by_cases hraw : result.isEmpty = true
        · rw [if_pos hraw]; exact ⟨rfl, rfl, rfl, rfl, rfl⟩
        · rw [if_neg hraw] at h ⊢
          by_cases hemp : (result.filter
              (fun p => decide (getProxyId p ∉ st.usedProxies))).isEmpty = true
          · rw [if_pos hemp] at h ⊢
            by_cases hmax : MAX_FETCH_ATTEMPTS ≤ st.proxyFetchAttempts + 1
            · rw [if_pos hmax]; exact ⟨rfl, rfl, rfl, rfl, rfl⟩
            · rw [if_neg hmax] at h ⊢
              exact ih { st with proxyFetchAttempts := st.proxyFetchAttempts + 1 } (k + 1) e h
          · rw [if_neg hemp] at h
            exact absurd h (by simp)

/-- Extending the returned list with a record whose identity is not yet
registered preserves registry soundness once that identity is inserted. -/
theorem regOk_extend (used : Finset String) (returned : List Proxy) (p : Proxy)
    (hreg : RegOk used returned) (hp : getProxyId p ∉ used) :
    RegOk (insert (getProxyId p) used) (returned ++ [p]) := by
  obtain ⟨hnd, hmem⟩ := hreg
  constructor
  · simp only [List.map_append, List.map_cons, List.map_nil]
    rw [List.nodup_append]
    refine ⟨hnd, List.nodup_singleton _, ?_⟩
    intro a ha hb
    simp only [List.mem_singleton] at hb
    subst hb
    rcases List.mem_map.mp ha with ⟨q, hq, hqe⟩
    exact hp (hqe ▸ hmem q hq)
  · intro q hq
    rcases List.mem_append.mp hq with h1 | h2
    · exact Finset.mem_insert_of_mem (hmem q h1)
    · rw [List.mem_singleton.mp h2]
      exact Finset.mem_insert_self _ _

/-- Consuming the record at the cursor (sequential rotation): its identity
is fresh, and advancing the cursor past it keeps the rest of the pool fresh
for the enlarged registry. -/
theorem poolFresh_consume_rotate (used : Finset String) (pool : List Proxy) (c : Nat)
    (hfresh : PoolFresh used pool c) (hlt : c < pool.length) :
    getProxyId pool[c] ∉ used ∧
    PoolFresh (insert (getProxyId pool[c]) used) pool (c + 1) := by
  obtain ⟨hnd, hfr⟩ := hfresh
  have hdrop : pool.drop c = pool[c] :: pool.drop (c + 1) := List.drop_eq_getElem_cons hlt
  rw [hdrop] at hnd hfr
  simp only [List.map_cons, List.nodup_cons] at hnd
  refine ⟨hfr _ (List.mem_cons_self _ _), ?_, ?_⟩
  · exact hnd.2
  · intro q hq
    simp only [Finset.mem_insert]
    rintro (h1 | h2)
    · exact hnd.1 (h1 ▸ List.mem_map_of_mem getProxyId hq)
    · exact hfr q (List.mem_cons_of_mem _ hq) h2

/-- Consuming a record at a random index and splicing it out (random
consumption): its identity is fresh, and the spliced pool stays fresh for
the enlarged registry. -/
theorem poolFresh_consume_random (used : Finset String) (pool : List Proxy) (i : Nat)
    (hfresh : PoolFresh used pool 0) (hi : i < pool.length) :
    getProxyId pool[i] ∉ used ∧
    PoolFresh (insert (getProxyId pool[i]) used) (pool.eraseIdx i) 0 := by
  obtain ⟨hnd, hfr⟩ := hfresh
  simp only [List.drop_zero] at hnd hfr
  refine ⟨hfr _ (pool.getElem_mem hi), ?_⟩
  unfold PoolFresh
  simp only [List.drop_zero]
  constructor
  · rw [map_eraseIdx_comm]
    exact hnd.sublist (List.eraseIdx_sublist _ i)
  · intro q hq
    have hqpool : q ∈ pool := (List.eraseIdx_sublist _ i).subset hq
    simp only [Finset.mem_insert]
    rintro (h1 | h2)
    · have hqid : getProxyId q ∈ (pool.map getProxyId).eraseIdx i := by
        rw [← map_eraseIdx_comm]
        exact List.mem_map_of_mem getProxyId hq
      have him : i < (pool.map getProxyId).length := by simpa using hi
      refine nodup_getElem_not_mem_eraseIdx _ i him hnd ?_
      have hgm : (pool.map getProxyId)[i] = getProxyId pool[i] := List.getElem_map _
      rw [hgm, ← h1]
      exact hqid
    · exact hfr q hqpool h2

/-- The consumption step preserves the free-run invariant and returns a
record whose identity was unregistered before the call and is registered
after it. -/
theorem consumeFree_inv (cfg : Config) (st : PoolState) (k rand : Nat)
    (returned : List Proxy)
    (hinv : FreeInv cfg st returned)
    (hlt : st.freeProxyIndex < st.freeProxyList.length) :
    (∃ p, (consumeFree cfg st k rand).result = .ok p ∧
      (consumeFree cfg st k rand).consumed = [p] ∧
      getProxyId p ∈ (consumeFree cfg st k rand).st.usedProxies) ∧
    FreeInv cfg (consumeFree cfg st k rand).st
      (returned ++ (consumeFree cfg st k rand).consumed) := by
  obtain ⟨hreg, hfresh, hcur⟩ := hinv
  unfold consumeFree
  by_cases hrot : cfg.freeRotateProxies = true
  · rw [if_pos hrot]
    have hget : st.freeProxyList.getD st.freeProxyIndex default
        = st.freeProxyList[st.freeProxyIndex] := List.getD_eq_getElem _ _ hlt
    rw [hget]
    dsimp only [NextOut.consumed]
    obtain ⟨hnew, hpf⟩ := poolFresh_consume_rotate _ _ _ hfresh hlt
    refine ⟨⟨_, rfl, rfl, Finset.mem_insert_self _ _⟩, ?_, ?_, ?_⟩
    · exact regOk_extend _ _ _ hreg hnew
    · exact hpf
    · intro hf
      exact absurd hrot (by simp [hf])
  · rw [if_neg hrot]
    have hf : cfg.freeRotateProxies = false := by
      cases hb : cfg.freeRotateProxies
      · rfl
      · exact absurd hb hrot
    have hc0 : st.freeProxyIndex = 0 := hcur hf
    have hlen : 0 < st.freeProxyList.length := Nat.lt_of_le_of_lt (Nat.zero_le _) hlt
    have hi : rand % st.freeProxyList.length < st.freeProxyList.length :=
      Nat.mod_lt _ hlen
    have hget : st.freeProxyList.getD (rand % st.freeProxyList.length) default
        = st.freeProxyList[rand % st.freeProxyList.length] := List.getD_eq_getElem _ _ hi
    dsimp only
    rw [hget]
    dsimp only [NextOut.consumed]
    have hfresh0 : PoolFresh st.usedProxies st.freeProxyList 0 := hc0 ▸ hfresh
    obtain ⟨hnew, hpf⟩ := poolFresh_consume_random _ _ _ hfresh0 hi
    refine ⟨⟨_, rfl, rfl, Finset.mem_insert_self _ _⟩, ?_, ?_, ?_⟩
    · exact regOk_extend _ _ _ hreg hnew
    · show PoolFresh _ _ st.freeProxyIndex
      rw [hc0]
      exact hpf
    · intro _
      exact hc0

/-- `fetchFreeProxyList` success facts, stated on the entry point. -/
theorem fetchFreeProxyList_ok (sources : List FetchSource) (env : FreeEnv)
    (henv : DupFreeFreeEnv env) (st : PoolState) (k si : Nat)
    (h : (fetchFreeProxyList sources env st k si).result = .ok ()) :
    (fetchFreeProxyList sources env st k si).st.usedProxies = st.usedProxies ∧
    (fetchFreeProxyList sources env st k si).st.freeProxyIndex = 0 ∧
    (fetchFreeProxyList sources env st k si).st.freeProxyList ≠ [] ∧
    PoolFresh st.usedProxies (fetchFreeProxyList sources env st k si).st.freeProxyList 0 ∧
    (fetchFreeProxyList sources env st k si).st.proxiflyProxies = st.proxiflyProxies ∧
    (fetchFreeProxyList sources env st k si).st.proxiflyCurrentIndex = st.proxiflyCurrentIndex :=
  fetchFreeAux_ok env henv st (sources.drop si) si k h

/-- `fetchFreeProxyList` failure facts, stated on the entry point. -/
theorem fetchFreeProxyList_error (sources : List FetchSource) (env : FreeEnv)
    (st : PoolState) (k si : Nat) (e : String)
    (h : (fetchFreeProxyList sources env st k si).result = .error e) :
    (fetchFreeProxyList sources env st k si).st = st :=
  fetchFreeAux_error env st (sources.drop si) si k e h

/-- The consumption step preserves the Proxifly-run invariant and returns a
record whose identity was unregistered before the call and is registered
after it. -/
theorem consumeProxifly_inv (cfg : Config) (st : PoolState) (k rand : Nat)
    (returned : List Proxy)
    (hinv : ProxiflyInv cfg st returned)
    (hlt : st.proxiflyCurrentIndex < st.proxiflyProxies.length) :
    (∃ p, (consumeProxifly cfg st k rand).result = .ok p ∧
      (consumeProxifly cfg st k rand).consumed = [p] ∧
      getProxyId p ∈ (consumeProxifly cfg st k rand).st.usedProxies) ∧
    ProxiflyInv cfg (consumeProxifly cfg st k rand).st
      (returned ++ (consumeProxifly cfg st k rand).consumed) := by
  obtain ⟨hreg, hfresh, hcur⟩ := hinv
  unfold consumeProxifly
  by_cases hrot : cfg.proxiflyRotateProxies = true
  · rw [if_pos hrot]
    have hget : st.proxiflyProxies.getD st.proxiflyCurrentIndex default
        = st.proxiflyProxies[st.proxiflyCurrentIndex] := List.getD_eq_getElem _ _ hlt
    rw [hget]
    dsimp only [NextOut.consumed]
    obtain ⟨hnew, hpf⟩ := poolFresh_consume_rotate _ _ _ hfresh hlt
    refine ⟨⟨_, rfl, rfl, Finset.mem_insert_self _ _⟩, ?_, ?_, ?_⟩
    · exact regOk_extend _ _ _ hreg hnew
    · exact hpf
    · intro hf
      exact absurd hrot (by simp [hf])
  · rw [if_neg hrot]
    have hf : cfg.proxiflyRotateProxies = false := by
      cases hb : cfg.proxiflyRotateProxies
      · rfl
      · exact absurd hb hrot
    have hc0 : st.proxiflyCurrentIndex = 0 := hcur hf
    have hlen : 0 < st.proxiflyProxies.length := Nat.lt_of_le_of_lt (Nat.zero_le _) hlt
    have hi : rand % st.proxiflyProxies.length < st.proxiflyProxies.length :=
      Nat.mod_lt _ hlen
    have hget : st.proxiflyProxies.getD (rand % st.proxiflyProxies.length) default
        = st.proxiflyProxies[rand % st.proxiflyProxies.length] := List.getD_eq_getElem _ _ hi
    dsimp only
    rw [hget]
    dsimp only [NextOut.consumed]
    have hfresh0 : PoolFresh st.usedProxies st.proxiflyProxies 0 := hc0 ▸ hfresh
    obtain ⟨hnew, hpf⟩ := poolFresh_consume_random _ _ _ hfresh0 hi
    refine ⟨⟨_, rfl, rfl, Finset.mem_insert_self _ _⟩, ?_, ?_, ?_⟩
    · exact regOk_extend _ _ _ hreg hnew
    · show PoolFresh _ _ st.proxiflyCurrentIndex
      rw [hc0]
      exact hpf
    · intro _
      exact hc0

/-- One `getNextFreeProxy` call preserves the free-run invariant, whatever
the environment does. -/
theorem getNextFreeProxy_inv (cfg : Config) (env : FreeEnv) (rand : Nat)
    (st : PoolState) (k : Nat) (returned : List Proxy)
    (henv : DupFreeFreeEnv env) (hinv : FreeInv cfg st returned) :
    FreeInv cfg (getNextFreeProxy cfg env rand st k).st
      (returned ++ (getNextFreeProxy cfg env rand st k).consumed) := by
  unfold getNextFreeProxy
  by_cases hg : (st.freeProxyList.isEmpty
      || decide (st.freeProxyList.length ≤ st.freeProxyIndex)) = true
  · rw [if_pos hg]
    dsimp only
    by_cases hmax : MAX_FETCH_ATTEMPTS ≤ st.proxyFetchAttempts + 1
    · rw [if_pos hmax]
      dsimp only [NextOut.consumed]
      rw [List.append_nil]
      exact hinv
    · rw [if_neg hmax]
      rcases hF : fetchFreeProxyList cfg.freeSources env
          { st with proxyFetchAttempts := st.proxyFetchAttempts + 1 } k
          ((st.currentSourceIndex + 1) % cfg.freeSources.length) with ⟨res, stf, kf⟩
      rcases res with e | u
      · dsimp only [NextOut.consumed]
        rw [List.append_nil]
        have he := fetchFreeProxyList_error cfg.freeSources env
          { st with proxyFetchAttempts := st.proxyFetchAttempts + 1 } k
          ((st.currentSourceIndex + 1) % cfg.freeSources.length) e (by rw [hF])
        rw [hF] at he
        dsimp only at he
        rw [he]
        exact hinv
      · have hok := fetchFreeProxyList_ok cfg.freeSources env henv
          { st with proxyFetchAttempts := st.proxyFetchAttempts + 1 } k
          ((st.currentSourceIndex + 1) % cfg.freeSources.length) (by rw [hF])
        rw [hF] at hok
        dsimp only at hok
        obtain ⟨hused, hidx, hne, hpf, _, _⟩ := hok
        have hinvf : FreeInv cfg stf returned := by
          refine ⟨?_, ?_, ?_⟩
          · rw [RegOk, hused]
            exact hinv.1
          · rw [PoolFresh, hused, hidx]
            exact hpf
          · intro _
            exact hidx
        have hlt : stf.freeProxyIndex < stf.freeProxyList.length := by
          rw [hidx]
          exact List.length_pos.mpr hne
        exact (consumeFree_inv cfg stf kf rand returned hinvf hlt).2
  · rw [if_neg hg]
    have hlt : st.freeProxyIndex < st.freeProxyList.length := by
      simp only [Bool.or_eq_true, decide_eq_true_eq, not_or] at hg
      omega
    exact (consumeFree_inv cfg st k rand returned hinv hlt).2

/-- `fetchProxiflyProxies` success facts, stated on the entry point. -/
theorem fetchProxiflyProxies_ok (cfg : Config) (env : PEnv) (henv : DupFreePEnv env)
    (st : PoolState) (k : Nat)
    (h : (fetchProxiflyProxies cfg env true st k).result = .ok ()) :
    (fetchProxiflyProxies cfg env true st k).st.usedProxies = st.usedProxies ∧
    (fetchProxiflyProxies cfg env true st k).st.proxiflyCurrentIndex = 0 ∧
    (fetchProxiflyProxies cfg env true st k).st.proxiflyProxies ≠ [] ∧
    PoolFresh st.usedProxies (fetchProxiflyProxies cfg env true st k).st.proxiflyProxies 0 ∧
    (fetchProxiflyProxies cfg env true st k).st.freeProxyList = st.freeProxyList ∧
    (fetchProxiflyProxies cfg env true st k).st.freeProxyIndex = st.freeProxyIndex :=
  fetchProxiflyAux_ok cfg env henv _ st k h

/-- `fetchProxiflyProxies` failure facts, stated on the entry point. -/
theorem fetchProxiflyProxies_error (cfg : Config) (env : PEnv)
    (st : PoolState) (k : Nat) (e : String)
    (h : (fetchProxiflyProxies cfg env true st k).result = .error e) :
    (fetchProxiflyProxies cfg env true st k).st.usedProxies = st.usedProxies ∧
    (fetchProxiflyProxies cfg env true st k).st.proxiflyProxies = st.proxiflyProxies ∧
    (fetchProxiflyProxies cfg env true st k).st.proxiflyCurrentIndex = st.proxiflyCurrentIndex ∧
    (fetchProxiflyProxies cfg env true st k).st.freeProxyList = st.freeProxyList ∧
    (fetchProxiflyProxies cfg env true st k).st.freeProxyIndex = st.freeProxyIndex :=
  fetchProxiflyAux_error cfg env _ st k e h

/-- One `getNextProxiflyProxy` call preserves the Proxifly-run invariant,
whatever the environment does. -/
theorem getNextProxiflyProxy_inv (cfg : Config) (env : PEnv) (rand : Nat)
    (st : PoolState) (k : Nat) (returned : List Proxy)
    (henv : DupFreePEnv env) (hinv : ProxiflyInv cfg st returned) :
    ProxiflyInv cfg (getNextProxiflyProxy cfg env rand st k).st
      (returned ++ (getNextProxiflyProxy cfg env rand st k).consumed) := by
  unfold getNextProxiflyProxy
  by_cases hg : (st.proxiflyProxies.isEmpty
      || decide (st.proxiflyProxies.length ≤ st.proxiflyCurrentIndex)) = true
  · rw [if_pos hg]
    rcases hF : fetchProxiflyProxies cfg env true st k with ⟨res, stf, kf⟩
    rcases res with e | u
    · dsimp only [NextOut.consumed]
      rw [List.append_nil]
      have he := fetchProxiflyProxies_error cfg env st k e (by rw [hF])
      rw [hF] at he
      dsimp only at he
      obtain ⟨h1, h2, h3, _, _⟩ := he
      exact ⟨by rw [RegOk, h1]; exact hinv.1,
        by rw [PoolFresh, h1, h2, h3]; exact hinv.2.1,
        fun hb => by rw [h3]; exact hinv.2.2 hb⟩
    · have hok := fetchProxiflyProxies_ok cfg env henv st k (by rw [hF])
      rw [hF] at hok
      dsimp only at hok
      obtain ⟨hused, hidx, hne, hpf, _, _⟩ := hok
      have hinvf : ProxiflyInv cfg stf returned := by
        refine ⟨?_, ?_, ?_⟩
        · rw [RegOk, hused]
          exact hinv.1
        · rw [PoolFresh, hused, hidx]
          exact hpf
        · intro _
          exact hidx
      have hlt : stf.proxiflyCurrentIndex < stf.proxiflyProxies.length := by
        rw [hidx]
        exact List.length_pos.mpr hne
      exact (consumeProxifly_inv cfg stf kf rand returned hinvf hlt).2
  · rw [if_neg hg]
    have hlt : st.proxiflyCurrentIndex < st.proxiflyProxies.length := by
      simp only [Bool.or_eq_true, decide_eq_true_eq, not_or] at hg
      omega
    exact (consumeProxifly_inv cfg st k rand returned hinv hlt).2

/-- Any successfully returned free-list record is registered in
`usedProxies` by the very call that returned it (code.js lines 251-253). -/
theorem consumeFree_registers (cfg : Config) (st : PoolState) (k rand : Nat) :
    ∀ p, (consumeFree cfg st k rand).result = .ok p →
      (consumeFree cfg st k rand).consumed = [p] ∧
      getProxyId p ∈ (consumeFree cfg st k rand).st.usedProxies := by
  intro p h
  unfold consumeFree at h ⊢
  by_cases hrot : cfg.freeRotateProxies = true
  · rw [if_pos hrot] at h ⊢
    dsimp only [NextOut.consumed] at h ⊢
    cases h
    exact ⟨rfl, Finset.mem_insert_self _ _⟩
  · rw [if_neg hrot] at h ⊢
    dsimp only [NextOut.consumed] at h ⊢
    cases h
    exact ⟨rfl, Finset.mem_insert_self _ _⟩

/-- Mirror of `consumeFree_registers` for the Proxifly pool
(code.js lines 365-367). -/
theorem consumeProxifly_registers (cfg : Config) (st : PoolState) (k rand : Nat) :
    ∀ p, (consumeProxifly cfg st k rand).result = .ok p →
      (consumeProxifly cfg st k rand).consumed = [p] ∧
      getProxyId p ∈ (consumeProxifly cfg st k rand).st.usedProxies := by
  intro p h
  unfold consumeProxifly at h ⊢
  by_cases hrot : cfg.proxiflyRotateProxies = true
  · rw [if_pos hrot] at h ⊢
    dsimp only [NextOut.consumed] at h ⊢
    cases h
    exact ⟨rfl, Finset.mem_insert_self _ _⟩
  · rw [if_neg hrot] at h ⊢
    dsimp only [NextOut.consumed] at h ⊢
    cases h
    exact ⟨rfl, Finset.mem_insert_self _ _⟩

/-- Whenever `getNextFreeProxy` returns a record, that record's identity is
in the used-proxy registry of the state the call leaves behind: the
registration happens at the moment of consumption. -/
theorem getNextFreeProxy_registers (cfg : Config) (env : FreeEnv) (rand : Nat)
    (st : PoolState) (k : Nat) :
    ∀ p, (getNextFreeProxy cfg env rand st k).result = .ok p →
      (getNextFreeProxy cfg env rand st k).consumed = [p] ∧
      getProxyId p ∈ (getNextFreeProxy cfg env rand st k).st.usedProxies := by
  intro p
  unfold getNextFreeProxy
  by_cases hg : (st.freeProxyList.isEmpty
      || decide (st.freeProxyList.length ≤ st.freeProxyIndex)) = true
  · rw [if_pos hg]
    dsimp only
    by_cases hmax : MAX_FETCH_ATTEMPTS ≤ st.proxyFetchAttempts + 1
    · rw [if_pos hmax]
      intro h
      exact absurd h (by simp)
    · rw [if_neg hmax]
      rcases hF : fetchFreeProxyList cfg.freeSources env
          { st with proxyFetchAttempts := st.proxyFetchAttempts + 1 } k
          ((st.currentSourceIndex + 1) % cfg.freeSources.length) with ⟨res, stf, kf⟩
      rcases res with e | u
      · intro h
        exact absurd h (by simp)
      · exact consumeFree_registers cfg stf kf rand p
  · rw [if_neg hg]
    exact consumeFree_registers cfg st k rand p

/-- Mirror of `getNextFreeProxy_registers` for `getNextProxiflyProxy`. -/
theorem getNextProxiflyProxy_registers (cfg : Config) (env : PEnv) (rand : Nat)
    (st : PoolState) (k : Nat) :
    ∀ p, (getNextProxiflyProxy cfg env rand st k).result = .ok p →
      (getNextProxiflyProxy cfg env rand st k).consumed = [p] ∧
      getProxyId p ∈ (getNextProxiflyProxy cfg env rand st k).st.usedProxies := by
  intro p
  unfold getNextProxiflyProxy
  by_cases hg : (st.proxiflyProxies.isEmpty
      || decide (st.proxiflyProxies.length ≤ st.proxiflyCurrentIndex)) = true
  · rw [if_pos hg]
    rcases hF : fetchProxiflyProxies cfg env true st k with ⟨res, stf, kf⟩
    rcases res with e | u
    · intro h
      exact absurd h (by simp)
    · exact consumeProxifly_registers cfg stf kf rand p
  · rw [if_neg hg]
    exact consumeProxifly_registers cfg st k rand p

/-- A whole script of `getNextFreeProxy` calls preserves the free-run
invariant. -/
theorem runFreeCalls_inv (cfg : Config) (env : FreeEnv) (henv : DupFreeFreeEnv env) :
    ∀ (script : List Nat) (acc : CallAcc),
      FreeInv cfg acc.st acc.returned →
      FreeInv cfg (runFreeCalls cfg env script acc).st
        (runFreeCalls cfg env script acc).returned := by
  intro script
  induction script with
  | nil => intro acc h; exact h
  | cons r rest ih =>
    intro acc h
    rw [runFreeCalls]
    exact ih _ (getNextFreeProxy_inv cfg env r acc.st acc.k acc.returned henv h)

/-- A whole script of `getNextProxiflyProxy` calls preserves the
Proxifly-run invariant. -/
theorem runProxiflyCalls_inv (cfg : Config) (env : PEnv) (henv : DupFreePEnv env) :
    ∀ (script : List Nat) (acc : CallAcc),
      ProxiflyInv cfg acc.st acc.returned →
      ProxiflyInv cfg (runProxiflyCalls cfg env script acc).st
        (runProxiflyCalls cfg env script acc).returned := by
  intro script
  induction script with
  | nil => intro acc h; exact h
  | cons r rest ih =>
    intro acc h
    rw [runProxiflyCalls]
    exact ih _ (getNextProxiflyProxy_inv cfg env r acc.st acc.k acc.returned henv h)

/-- The invariants hold at module initialization. -/
theorem freeInv_init (cfg : Config) : FreeInv cfg initState [] := by
  refine ⟨⟨List.nodup_nil, by intro p hp; cases hp⟩, ⟨?_, ?_⟩, fun _ => rfl⟩
  · simp [initState]
  · intro p hp
    simp [initState] at hp

/-- The Proxifly invariant holds at module initialization. -/
theorem proxiflyInv_init (cfg : Config) : ProxiflyInv cfg initState [] := by
  refine ⟨⟨List.nodup_nil, by intro p hp; cases hp⟩, ⟨?_, ?_⟩, fun _ => rfl⟩
  · simp [initState]
  · intro p hp
    simp [initState] at hp

/-- Claim C1, counterexample. The fetcher filters candidates only against
the used-proxy registry (code.js lines 183-186) and never deduplicates
within a listing, so a listing that repeats a line yields a pool with two
records of the same identity, and two consecutive `getNextFreeProxy` calls
(sequential rotation, starting from the module-initial state) return two
records sharing the identity `1.1.1.1:80` — the no-repeat invariant fails
as stated. -/
theorem C1_counterexample :
    ((runFreeCalls defaultConfig c1Env [0, 0] ⟨initState, 0, [], []⟩).returned.map getProxyId
      = ["1.1.1.1:80", "1.1.1.1:80"]) ∧
    ¬ ((runFreeCalls defaultConfig c1Env [0, 0] ⟨initState, 0, [], []⟩).returned.map
        getProxyId).Nodup := by
  constructor
  · decide
  · decide

/-- Claim C1 (amended): provided every fetched listing (free-list lines, or
Proxifly batch) carries pairwise-distinct identities, then for every
sequence of `getNextFreeProxy` calls and every sequence of
`getNextProxiflyProxy` calls from the module-initial state — any number of
refetches included, under sequential rotation or random consumption — no
two returned records share an identity and every returned record's identity
is in the final registry; moreover, unconditionally, the chosen record's
identity is a member of the used-proxy registry already in the state the
returning call leaves behind (registration at the moment of consumption). -/
theorem C1_no_repeat_amended :
    (∀ (cfg : Config) (env : FreeEnv), DupFreeFreeEnv env →
      ∀ script : List Nat,
        ((runFreeCalls cfg env script ⟨initState, 0, [], []⟩).returned.map getProxyId).Nodup ∧
          ∀ p ∈ (runFreeCalls cfg env script ⟨initState, 0, [], []⟩).returned,
            getProxyId p ∈ (runFreeCalls cfg env script ⟨initState, 0, [], []⟩).st.usedProxies) ∧
    (∀ (cfg : Config) (env : PEnv), DupFreePEnv env →
      ∀ script : List Nat,
        ((runProxiflyCalls cfg env script ⟨initState, 0, [], []⟩).returned.map getProxyId).Nodup ∧
          ∀ p ∈ (runProxiflyCalls cfg env script ⟨initState, 0, [], []⟩).returned,
            getProxyId p ∈ (runProxiflyCalls cfg env script ⟨initState, 0, [], []⟩).st.usedProxies) ∧
    (∀ (cfg : Config) (env : FreeEnv) (rand : Nat) (st : PoolState) (k : Nat) (p : Proxy),
      (getNextFreeProxy cfg env rand st k).result = .ok p →
      getProxyId p ∈ (getNextFreeProxy cfg env rand st k).st.usedProxies) ∧
    (∀ (cfg : Config) (env : PEnv) (rand : Nat) (st : PoolState) (k : Nat) (p : Proxy),
      (getNextProxiflyProxy cfg env rand st k).result = .ok p →
      getProxyId p ∈ (getNextProxiflyProxy cfg env rand st k).st.usedProxies) := by
  refine ⟨?_, ?_, ?_, ?_⟩
  · intro cfg env henv script
    have h := runFreeCalls_inv cfg env henv script ⟨initState, 0, [], []⟩ (freeInv_init cfg)
    exact ⟨h.1.1, h.1.2⟩
  · intro cfg env henv script
    have h := runProxiflyCalls_inv cfg env henv script ⟨initState, 0, [], []⟩ (proxiflyInv_init cfg)
    exact ⟨h.1.1, h.1.2⟩
  · intro cfg env rand st k p h
    exact (getNextFreeProxy_registers cfg env rand st k p h).2
  · intro cfg env rand st k p h
    exact (getNextProxiflyProxy_registers cfg env rand st k p h).2

/-- Witness for the amended C1 theorem at a concrete duplicate-free
environment and the two-call script. -/
theorem C1_no_repeat_amended_witness :
    DupFreeFreeEnv c1WEnv ∧
    ((runFreeCalls defaultConfig c1WEnv [0, 0] ⟨initState, 0, [], []⟩).returned.map
      getProxyId).Nodup := by
  have hdf : DupFreeFreeEnv c1WEnv := by
    intro k s hs
    simp only [c1WEnv] at hs
    cases hs
    decide
  exact ⟨hdf, (C1_no_repeat_amended.1 defaultConfig c1WEnv hdf [0, 0]).1⟩

theorem range_filter_lt (n m : Nat) :
    (List.range n).filter (fun i => decide (i < m)) = List.range (min m n) := by
  induction n with
  | zero => simp
  | succ n ih =>
    rw [List.range_succ, List.filter_append, ih]
    by_cases h : n < m
    · have hmin1 : min m n = n := by omega
      have hmin2 : min m (n + 1) = n + 1 := by omega
      rw [hmin1, hmin2, List.range_succ]
      simp [h]
    · have hmin1 : min m n = m := by omega
      have hmin2 : min m (n + 1) = m := by omega
      rw [hmin1, hmin2]
      simp [h]

/-- The inner worker loop of one batch launches the ids
`b*conc, ..., b*conc + min conc (total - b*conc) - 1`. -/
theorem batchWorkerIds_eq (total conc b : Nat) :
    batchWorkerIds total conc b
      = (List.range (min conc (total - b * conc))).map (fun i => b * conc + i) := by
  unfold batchWorkerIds
  have hfun : (fun i => decide (b * conc + i < total))
      = (fun i => decide (i < total - b * conc)) := by
    funext i
    rw [decide_eq_decide]
    omega
  rw [hfun, range_filter_lt, Nat.min_comm]

theorem batchWorkerIds_succ (total conc b : Nat) :
    batchWorkerIds total conc (b + 1)
      = (batchWorkerIds (total - conc) conc b).map (fun i => conc + i) := by
  rw [batchWorkerIds_eq, batchWorkerIds_eq, List.map_map]
  have h1 : total - (b + 1) * conc = total - conc - b * conc := by
    have : (b + 1) * conc = b * conc + conc := by ring
    omega
  rw [h1]
  congr 1
  funext i
  simp only [Function.comp]
  ring

theorem ceilDiv_of_le (total conc : Nat) (h0 : 0 < total)
    (h : total ≤ conc) : ceilDiv total conc = 1 := by
  unfold ceilDiv
  refine Nat.div_eq_of_lt_le (by omega) (by omega)

theorem ceilDiv_of_lt (total conc : Nat) (hc : 0 < conc) (h : conc < total) :
    ceilDiv total conc = ceilDiv (total - conc) conc + 1 := by
  unfold ceilDiv
  have h1 : total + conc - 1 = (total - conc + conc - 1) + conc := by omega
  rw [h1, Nat.add_div_right _ hc]

/-- The concurrent dispatcher's batches launch exactly the request numbers
`0, ..., totalRequests - 1`, each once, in order. -/
theorem allBatches_flatten (total conc : Nat) (hc : 0 < conc) :
    (allBatches total conc).flatten = List.range total := by
  induction total using Nat.strong_induction_on with
  | _ total ih =>
    by_cases htc : total ≤ conc
    · by_cases h0 : total = 0
      · subst h0
        have : ceilDiv 0 conc = 0 := by
          unfold ceilDiv
          exact Nat.div_eq_of_lt (by omega)
        simp [allBatches, this]
      · have hceil : ceilDiv total conc = 1 :=
          ceilDiv_of_le total conc (by omega) htc
        rw [allBatches, hceil]
        rw [show List.range 1 = [0] from rfl]
        simp only [List.map_cons, List.map_nil, List.flatten_cons,
          List.flatten_nil, List.append_nil]
        rw [batchWorkerIds_eq]
        have hmin : min conc (total - 0 * conc) = total := by omega
        rw [hmin]
        have hfun : (fun i => 0 * conc + i) = (id : Nat → Nat) := by
          funext i
          simp
        rw [hfun, List.map_id]
    · have hlt : conc < total := by omega
      have hceil := ceilDiv_of_lt total conc hc hlt
      rw [allBatches, hceil, List.range_succ_eq_map]
      simp only [List.map_cons, List.map_map, List.flatten_cons]
      have hb0 : batchWorkerIds total conc 0 = List.range conc := by
        rw [batchWorkerIds_eq]
        have hmin : min conc (total - 0 * conc) = conc := by omega
        rw [hmin]
        have hfun : (fun i => 0 * conc + i) = (id : Nat → Nat) := by
          funext i
          simp
        rw [hfun, List.map_id]
      have hcomp : (batchWorkerIds total conc ∘ Nat.succ)
          = (fun b => (batchWorkerIds (total - conc) conc b).map (fun i => conc + i)) := by
        funext b
        exact batchWorkerIds_succ total conc b
      rw [hb0, hcomp]
      have hmapmap : (List.map (fun b => (batchWorkerIds (total - conc) conc b).map
            (fun i => conc + i)) (List.range (ceilDiv (total - conc) conc)))
          = ((allBatches (total - conc) conc).map (List.map (fun i => conc + i))) := by
        rw [allBatches, List.map_map]
        rfl
      rw [hmapmap, ← List.map_flatten, ih (total - conc) (by omega)]
      have htot : conc + (total - conc) = total := by omega
      conv_rhs => rw [← htot]
      rw [List.range_add]

/-- Claim C8: in concurrent mode the dispatcher partitions `totalRequests`
into `ceil(totalRequests / maxConcurrent)` batches of size `maxConcurrent`
with only the last batch possibly smaller; in particular `totalRequests =
11` with `maxConcurrent = 4` yields batch sizes `[4, 4, 3]`, and exactly
`totalRequests` workers are launched overall (request numbers
`0, ..., totalRequests - 1`, each exactly once). -/
theorem C8_batch_sizing :
    ((allBatches 11 4).map List.length = [4, 4, 3]) ∧
    ((allBatches 11 4).flatten.length = 11) ∧
    (∀ total conc : Nat, 0 < conc →
      (allBatches total conc).flatten = List.range total ∧
      (allBatches total conc).length = ceilDiv total conc ∧
      ∀ b : Nat, b < ceilDiv total conc →
        (batchWorkerIds total conc b).length = min conc (total - b * conc)) := by
  refine ⟨by decide, by decide, ?_⟩
  intro total conc hc
  refine ⟨allBatches_flatten total conc hc, by simp [allBatches], ?_⟩
  intro b _
  rw [batchWorkerIds_eq]
  simp

/-- Witness for C8 at `totalRequests = 11`, `maxConcurrent = 4`. -/
theorem C8_batch_sizing_witness :
    (0 < 4) ∧ (allBatches 11 4).flatten = List.range 11 :=
  ⟨by decide, (C8_batch_sizing.2.2 11 4 (by decide)).1⟩

/-- An attempt whose `getRandomUserAgent` draw is empty throws before
touching any pool (code.js lines 549-551). -/
theorem scrapeAttempt_ua_empty (cfg : Config) (o : Oracles) (fenv : FreeEnv)
    (penv : PEnv) (rc : Nat) (st : PoolState) (kf kp t : Nat)
    (hua : o.ua t = "") :
    scrapeAttempt cfg o fenv penv rc st kf kp t
      = ⟨.error ⟨"No suitable user agent found", "Error"⟩, st, kf, kp, [], []⟩ := by
  rw [scrapeAttempt]
  dsimp only
  rw [if_pos hua]

/-- In mode "none" an attempt skips proxy acquisition entirely: the try
result is decided by the Task Executor outcome alone and the pool is
untouched. -/
theorem scrapeAttempt_none_eq (cfg : Config) (o : Oracles) (fenv : FreeEnv)
    (penv : PEnv) (rc : Nat) (st : PoolState) (kf kp t : Nat)
    (hmode : cfg.proxyMode = "none") (hua : o.ua t ≠ "") :
    scrapeAttempt cfg o fenv penv rc st kf kp t
      = match o.outcome t with
        | .thrown e => ⟨.error e, st, kf, kp, [], [Ev.executed t]⟩
        | .response status title finalUrl viewCount contentLength =>
          if 400 ≤ status then
            if (status = 429 ∨ 500 ≤ status) ∧ rc < cfg.maxRetries then
              ⟨.error ⟨"HTTP " ++ toString status ++ " - Retry available", "Error"⟩,
                st, kf, kp, [], [Ev.executed t]⟩
            else
              ⟨.error ⟨"HTTP " ++ toString status, "Error"⟩, st, kf, kp, [], [Ev.executed t]⟩
          else
            ⟨.ok (.ok status title finalUrl (o.ua t) viewCount contentLength),
              st, kf, kp, [], [Ev.executed t]⟩ := by
  rw [scrapeAttempt]
  dsimp only
  rw [if_neg hua, hmode]
  rw [if_neg (show ¬(("none" : String) = "proxifly") from by decide)]
  rw [if_neg (show ¬(("none" : String) = "free-proxy-list") from by decide)]
  dsimp only
  rw [if_neg (show ¬((decide (("none" : String) = "proxifly") && badProxyShape none) = true)
    from by decide)]
  rcases ho : o.outcome t with e | ⟨status, title, finalUrl, viewCount, contentLength⟩
  · rfl
  · rfl

/-- In `free-proxy-list` mode, when `getNextFreeProxy` throws, the attempt
re-throws its message with no record consumed, carrying the pool state and
fetch counter the failed acquisition left behind (code.js lines 556-558). -/
theorem scrapeAttempt_free_err (cfg : Config) (o : Oracles) (fenv : FreeEnv)
    (penv : PEnv) (rc : Nat) (st : PoolState) (kf kp t : Nat)
    (hmode : cfg.proxyMode = "free-proxy-list") (hua : o.ua t ≠ "") (e : String)
    (hN : (getNextFreeProxy cfg fenv (o.rand t) st kf).result = .error e) :
    scrapeAttempt cfg o fenv penv rc st kf kp t
      = ⟨.error ⟨e, "Error"⟩, (getNextFreeProxy cfg fenv (o.rand t) st kf).st,
          (getNextFreeProxy cfg fenv (o.rand t) st kf).k, kp, [], []⟩ := by
  rw [scrapeAttempt]
  dsimp only
  rw [if_neg hua, hmode]
  rw [if_neg (show ¬(("free-proxy-list" : String) = "proxifly") from by decide)]
  rw [if_pos (show ("free-proxy-list" : String) = "free-proxy-list" from rfl)]
  rcases hNN : getNextFreeProxy cfg fenv (o.rand t) st kf with ⟨nres, nst, nk⟩
  rw [hNN] at hN
  dsimp only at hN ⊢
  subst hN
  rfl

/-- In `free-proxy-list` mode, when `getNextFreeProxy` hands out a record,
the attempt consumes exactly that record — pool state and fetch counter
advance to the acquisition's — and its event trace is the consumption of
that record immediately followed by the Task Executor invocation. -/
theorem scrapeAttempt_free_ok (cfg : Config) (o : Oracles) (fenv : FreeEnv)
    (penv : PEnv) (rc : Nat) (st : PoolState) (kf kp t : Nat)
    (hmode : cfg.proxyMode = "free-proxy-list") (hua : o.ua t ≠ "") (p : Proxy)
    (hN : (getNextFreeProxy cfg fenv (o.rand t) st kf).result = .ok p) :
    (scrapeAttempt cfg o fenv penv rc st kf kp t).st
        = (getNextFreeProxy cfg fenv (o.rand t) st kf).st ∧
    (scrapeAttempt cfg o fenv penv rc st kf kp t).kf
        = (getNextFreeProxy cfg fenv (o.rand t) st kf).k ∧
    (scrapeAttempt cfg o fenv penv rc st kf kp t).kp = kp ∧
    (scrapeAttempt cfg o fenv penv rc st kf kp t).consumed = [p] ∧
    (scrapeAttempt cfg o fenv penv rc st kf kp t).evs
        = [Ev.consumed (getProxyId p), Ev.executed t] := by
  rw [scrapeAttempt]
  dsimp only
  rw [if_neg hua, hmode]
  rw [if_neg (show ¬(("free-proxy-list" : String) = "proxifly") from by decide)]
  rw [if_pos (show ("free-proxy-list" : String) = "free-proxy-list" from rfl)]
  rcases hNN : getNextFreeProxy cfg fenv (o.rand t) st kf with ⟨nres, nst, nk⟩
  rw [hNN] at hN
  dsimp only at hN ⊢
  subst hN
  dsimp only
  rw [if_neg (show ¬((decide (("free-proxy-list" : String) = "proxifly")
      && badProxyShape (some p)) = true) from by
    rw [show decide (("free-proxy-list" : String) = "proxifly") = false from by decide]
    simp)]
  rcases ho : o.outcome t with e2 | ⟨status, title, finalUrl, viewCount, contentLength⟩
  · exact ⟨rfl, rfl, rfl, rfl, rfl⟩
  · dsimp only
    by_cases h400 : 400 ≤ status
    · rw [if_pos h400]
      by_cases hcode : (status = 429 ∨ 500 ≤ status) ∧ rc < cfg.maxRetries
      · rw [if_pos hcode]
        exact ⟨rfl, rfl, rfl, rfl, rfl⟩
      · rw [if_neg hcode]
        exact ⟨rfl, rfl, rfl, rfl, rfl⟩
    · rw [if_neg h400]
      exact ⟨rfl, rfl, rfl, rfl, rfl⟩

/-- In no-proxy mode, when every attempt throws a retryable error, a run
entered at `retryCount = rc` with `rc + n = maxRetries` performs exactly
`n + 1` attempts, sleeps `backoffDelays[rc], ..., backoffDelays[maxRetries-1]`
in order, ends in the typed failure result, and never touches the pool
state. -/
theorem scrapeAux_all_retryable (cfg : Config) (o : Oracles) (fenv : FreeEnv)
    (penv : PEnv) (url : String)
    (hmode : cfg.proxyMode = "none")
    (hua : ∀ tt, o.ua tt ≠ "")
    (hfail : ∀ tt, ∃ e, o.outcome tt = .thrown e ∧ retryableErr e = true) :
    ∀ (n rc : Nat), rc + n = cfg.maxRetries →
      ∀ (st : PoolState) (kf kp t : Nat),
      (∃ e s ua, (scrapeWithRetryAux cfg o fenv penv url (n + 1) rc st kf kp t).result
        = .fail e s ua) ∧
      (scrapeWithRetryAux cfg o fenv penv url (n + 1) rc st kf kp t).trace.delays
        = (List.range n).map (fun j => cfg.backoffDelays.getD (rc + j) 0) ∧
      (scrapeWithRetryAux cfg o fenv penv url (n + 1) rc st kf kp t).trace.attempts
        = n + 1 ∧
      (scrapeWithRetryAux cfg o fenv penv url (n + 1) rc st kf kp t).st = st := by
  intro n
  induction n with
  | zero =>
    intro rc hrc st kf kp t
    obtain ⟨e, hout, hret⟩ := hfail t
    rw [scrapeWithRetryAux]
    dsimp only
    rw [scrapeAttempt_none_eq cfg o fenv penv rc st kf kp t hmode (hua t)]
    rw [hout]
    dsimp only
    have hnotlt : ¬(rc < cfg.maxRetries) := by omega
    rw [if_neg (by simp [hnotlt])]
    exact ⟨⟨_, _, _, rfl⟩, rfl, rfl, rfl⟩
  | succ n ih =>
    intro rc hrc st kf kp t
    obtain ⟨e, hout, hret⟩ := hfail t
    rw [scrapeWithRetryAux]
    dsimp only
    rw [scrapeAttempt_none_eq cfg o fenv penv rc st kf kp t hmode (hua t)]
    rw [hout]
    dsimp only
    have hlt : rc < cfg.maxRetries := by omega
    have hret3 : (strIncludes e.message "429" || strIncludes e.message "5"
        || (e.name == "TimeoutError")) = true := hret
    rw [if_pos (by simp [hret3, hlt])]
    dsimp only
    rcases hR : scrapeWithRetryAux cfg o fenv penv url (n + 1) (rc + 1) st kf kp (t + 1)
      with ⟨res1, st2, kf2, kp2, t2, ⟨delays1, proxies1, attempts1, events1⟩⟩
    obtain ⟨ihr, ihd, iha, ihs⟩ := ih (rc + 1) (by omega) st kf kp (t + 1)
    rw [hR] at ihr ihd iha ihs
    dsimp only at ihr ihd iha ihs ⊢
    refine ⟨ihr, ?_, ?_, ihs⟩
    · rw [ihd, List.range_succ_eq_map, List.map_cons, List.map_map]
      have hfun : ((fun j => cfg.backoffDelays.getD (rc + j) 0) ∘ Nat.succ)
          = (fun j => cfg.backoffDelays.getD (rc + 1 + j) 0) := by
        funext j
        simp only [Function.comp]
        rw [show rc + Nat.succ j = rc + 1 + j by omega]
      rw [hfun]
      simp
    · rw [iha]
      omega

/-- Claim C4: with `maxRetries = 3` and `backoffDelays = [100, 300, 900]`,
a work unit whose every attempt fails with a retryable kind performs exactly
3 retries (4 attempts), sleeping delays 100, 300, 900 in that order
(`backoffDelays` indexed by the current attempt number, code.js line 846),
before reaching the terminal typed failure. -/
theorem C4_backoff_fidelity
    (cfg : Config) (o : Oracles) (fenv : FreeEnv) (penv : PEnv) (url : String)
    (st : PoolState) (kf kp t : Nat)
    (hmr : cfg.maxRetries = 3)
    (hbd : cfg.backoffDelays = [100, 300, 900])
    (hmode : cfg.proxyMode = "none")
    (hua : ∀ tt, o.ua tt ≠ "")
    (hfail : ∀ tt, ∃ e, o.outcome tt = .thrown e ∧ retryableErr e = true) :
    (scrapeWithRetry cfg o fenv penv url 0 st kf kp t).trace.delays = [100, 300, 900] ∧
    (scrapeWithRetry cfg o fenv penv url 0 st kf kp t).trace.attempts = 4 ∧
    ∃ e s ua, (scrapeWithRetry cfg o fenv penv url 0 st kf kp t).result = .fail e s ua := by
  obtain ⟨hr, hd, ha, _⟩ :=
    scrapeAux_all_retryable cfg o fenv penv url hmode hua hfail 3 0 (by omega) st kf kp t
  have hgas : cfg.maxRetries + 1 - 0 = 3 + 1 := by omega
  unfold scrapeWithRetry
  rw [hgas]
  refine ⟨?_, ha, hr⟩
  rw [hd, hbd]
  decide

/-- Witness for C4 at a concrete always-timing-out run. -/
theorem C4_backoff_fidelity_witness :
    (∀ tt, c4Oracles.ua tt ≠ "") ∧
    (scrapeWithRetry c4Cfg c4Oracles (fun _ => .error "x") (fun _ => .error "x")
      "url" 0 initState 0 0 0).trace.delays = [100, 300, 900] := by
  have hua : ∀ tt, c4Oracles.ua tt ≠ "" := fun tt => by simp [c4Oracles]
  have hfail : ∀ tt, ∃ e, c4Oracles.outcome tt = .thrown e ∧ retryableErr e = true :=
    fun tt => ⟨⟨"Navigation timeout exceeded", "TimeoutError"⟩, rfl, by decide⟩
  exact ⟨hua, (C4_backoff_fidelity c4Cfg c4Oracles (fun _ => .error "x")
    (fun _ => .error "x") "url" initState 0 0 0 rfl rfl rfl hua hfail).1⟩

/-- Claim C5: a failure that is none of rate-limited (`429` in the
message), server-fault (`5` in the message) or timeout (`TimeoutError`
name) drives the work unit directly to the terminal typed failure with a
single attempt, no backoff sleep, regardless of how many attempts remain
(any entry `retryCount`, any `maxRetries`). -/
theorem C5_nonretryable_terminal
    (cfg : Config) (o : Oracles) (fenv : FreeEnv) (penv : PEnv) (url : String)
    (st : PoolState) (kf kp t rc : Nat) (e : ExecError)
    (hmode : cfg.proxyMode = "none")
    (hua : o.ua t ≠ "")
    (hout : o.outcome t = .thrown e)
    (hnr : retryableErr e = false) :
    (scrapeWithRetry cfg o fenv penv url rc st kf kp t).result
      = .fail e.message (httpStatusOf e.message) (o.ua t) ∧
    (scrapeWithRetry cfg o fenv penv url rc st kf kp t).trace.attempts = 1 ∧
    (scrapeWithRetry cfg o fenv penv url rc st kf kp t).trace.delays = [] := by
  unfold scrapeWithRetry
  rw [scrapeWithRetryAux]
  dsimp only
  rw [scrapeAttempt_none_eq cfg o fenv penv rc st kf kp t hmode hua]
  rw [hout]
  dsimp only
  have hnr3 : (strIncludes e.message "429" || strIncludes e.message "5"
      || (e.name == "TimeoutError")) = false := hnr
  rw [if_neg (by simp [hnr3])]
  exact ⟨rfl, rfl, rfl⟩

/-- Witness for C5 at a concrete non-retryable failure with retries still
available (`retryCount = 0`, `maxRetries = 5`). -/
theorem C5_nonretryable_terminal_witness :
    retryableErr ⟨"Invalid proxy format from Proxifly", "Error"⟩ = false ∧
    (scrapeWithRetry { defaultConfig with proxyMode := "none" } c5Oracles
      (fun _ => .error "x") (fun _ => .error "x") "url" 0 initState 0 0 0).trace.attempts = 1 := by
  refine ⟨by decide, ?_⟩
  exact (C5_nonretryable_terminal { defaultConfig with proxyMode := "none" } c5Oracles
    (fun _ => .error "x") (fun _ => .error "x") "url" initState 0 0 0 0
    ⟨"Invalid proxy format from Proxifly", "Error"⟩ rfl (by decide) rfl (by decide)).2.1

/-- One `getNextFreeProxy` call on an empty pool with attempts left, when
both configured sources deliver listings with zero candidates: a single
refetch pass (consuming exactly one fetch, since the pass starts at source
index 1 of 2) fails, the call throws the fetch-failure error — not the
pool-exhausted error — and only `proxyFetchAttempts` advances. -/
theorem getNextFreeProxy_noCandidates (cfg : Config) (env : FreeEnv)
    (henv : ∀ k, ∃ s, env k = .ok s ∧ parseProxyLines s = [])
    (hlen : cfg.freeSources.length = 2)
    (st : PoolState) (k rand : Nat)
    (hpool : st.freeProxyList = []) (hcsi : st.currentSourceIndex = 0)
    (hatt : st.proxyFetchAttempts + 1 < MAX_FETCH_ATTEMPTS) :
    getNextFreeProxy cfg env rand st k
      = ⟨.error freeFetchFailMsg,
         { st with proxyFetchAttempts := st.proxyFetchAttempts + 1 }, k + 1⟩ := by
  obtain ⟨s, hs, hsnil⟩ := henv k
  rcases hsrc : cfg.freeSources with _ | ⟨a, rest⟩
  · rw [hsrc] at hlen; simp at hlen
  rcases rest with _ | ⟨b, rest2⟩
  · rw [hsrc] at hlen; simp at hlen
  rcases rest2 with _ | ⟨c, rest3⟩
  swap
  · rw [hsrc] at hlen; simp at hlen
  unfold getNextFreeProxy
  rw [if_pos (by rw [hpool]; simp)]
  dsimp only
  rw [if_neg (by omega)]
  rw [hcsi, hsrc]
  unfold fetchFreeProxyList
  rw [show ([a, b].length) = 2 from rfl]
  rw [show (0 + 1) % 2 = 1 from rfl]
  rw [show ([a, b].drop 1) = [b] from rfl]
  rw [fetchFreeAux]
  rw [hs]
  dsimp only
  rw [show linesToProxies b (parseProxyLines s)
      = linesToProxies b [] from by rw [hsnil]]
  rw [show (linesToProxies b []).filter
      (fun p => decide (getProxyId p ∉
        ({ st with proxyFetchAttempts := st.proxyFetchAttempts + 1 } : PoolState).usedProxies))
      = [] from rfl]
  rw [if_pos (show (List.isEmpty ([] : List Proxy)) = true from rfl)]
  rw [fetchFreeAux]
  dsimp only
  rw [if_pos (show (List.isEmpty ([] : List FetchSource)) = true from rfl)]
  rfl

/-- A `getNextFreeProxy` call on an empty pool whose `proxyFetchAttempts`
counter has reached `MAX_FETCH_ATTEMPTS - 1`: the call raises the
pool-exhausted error without performing any refetch (the fetch counter does
not advance). -/
theorem getNextFreeProxy_exhausted (cfg : Config) (env : FreeEnv) (rand : Nat)
    (st : PoolState) (k : Nat)
    (hpool : st.freeProxyList = [])
    (hatt : MAX_FETCH_ATTEMPTS ≤ st.proxyFetchAttempts + 1) :
    getNextFreeProxy cfg env rand st k
      = ⟨.error freeExhaustedMsg,
         { st with proxyFetchAttempts := st.proxyFetchAttempts + 1 }, k⟩ := by
  unfold getNextFreeProxy
  rw [if_pos (by rw [hpool]; simp)]
  dsimp only
  rw [if_pos hatt]

/-- `fetchProxiflyProxies` when the API always answers with a nonempty
batch whose every identity is already registered: the internal
retry-the-same-provider loop performs exactly one fetch per remaining
attempt, then fails with the pool-exhausted error. Entered with `n + 1`
attempts remaining, it consumes exactly `n + 1` fetches. -/
theorem fetchProxiflyAux_allUsed (cfg : Config) (env : PEnv) (U : Finset String)
    (hkey : ¬cfg.proxiflyApiKey = "")
    (henv : ∀ k, ∃ l, env k = .ok l ∧ ¬(l.isEmpty = true) ∧ ∀ q ∈ l, getProxyId q ∈ U) :
    ∀ (n : Nat) (st : PoolState) (k : Nat),
      st.usedProxies = U →
      st.proxyFetchAttempts + (n + 1) = MAX_FETCH_ATTEMPTS →
      (fetchProxiflyAux cfg env true (n + 1) st k).result = .error proxiflyExhaustedMsg ∧
      (fetchProxiflyAux cfg env true (n + 1) st k).k = k + (n + 1) := by
  intro n
  induction n with
  | zero =>
    intro st k hU hatt
    obtain ⟨l, hl, hlne, hlused⟩ := henv k
    rw [fetchProxiflyAux]
    rw [if_neg hkey]
    simp only [hl, if_true]
    rw [if_neg hlne]
    have hfilt : l.filter (fun p => decide (getProxyId p ∉ st.usedProxies)) = [] := by
      rw [List.filter_eq_nil_iff]
      intro q hq
      simp only [decide_eq_true_eq, not_not]
      rw [hU]
      exact hlused q hq
    rw [hfilt]
    rw [if_pos (show (List.isEmpty ([] : List Proxy)) = true from rfl)]
    rw [if_pos (by unfold MAX_FETCH_ATTEMPTS at hatt ⊢; omega)]
    exact ⟨rfl, rfl⟩
  | succ n ih =>
    intro st k hU hatt
    obtain ⟨l, hl, hlne, hlused⟩ := henv k
    rw [fetchProxiflyAux]
    rw [if_neg hkey]
    simp only [hl, if_true]
    rw [if_neg hlne]
    have hfilt : l.filter (fun p => decide (getProxyId p ∉ st.usedProxies)) = [] := by
      rw [List.filter_eq_nil_iff]
      intro q hq
      simp only [decide_eq_true_eq, not_not]
      rw [hU]
      exact hlused q hq
    rw [hfilt]
    rw [if_pos (show (List.isEmpty ([] : List Proxy)) = true from rfl)]
    rw [if_neg (by unfold MAX_FETCH_ATTEMPTS at hatt ⊢; omega)]
    obtain ⟨ihr, ihk⟩ := ih { st with proxyFetchAttempts := st.proxyFetchAttempts + 1 }
      (k + 1) hU (by unfold MAX_FETCH_ATTEMPTS at hatt ⊢; dsimp only; omega)
    refine ⟨ihr, ?_⟩
    rw [ihk]
    omega

/-- A single `getNextProxiflyProxy` call on an exhausted pool, when the API
always answers with nonempty all-already-used batches: the call performs
exactly `MAX_FETCH_ATTEMPTS = 5` internal fetches and then fails with the
pool-exhausted condition (wrapped at code.js line 348). -/
theorem getNextProxifly_allUsed (cfg : Config) (env : PEnv) (rand : Nat)
    (st : PoolState) (k : Nat)
    (hkey : ¬cfg.proxiflyApiKey = "")
    (hpool : st.proxiflyProxies = [])
    (hatt : st.proxyFetchAttempts = 0)
    (henv : ∀ kk, ∃ l, env kk = .ok l ∧ ¬(l.isEmpty = true) ∧
      ∀ q ∈ l, getProxyId q ∈ st.usedProxies) :
    (getNextProxiflyProxy cfg env rand st k).result
      = .error ("Failed to fetch new proxies: " ++ proxiflyExhaustedMsg) ∧
    (getNextProxiflyProxy cfg env rand st k).k = k + MAX_FETCH_ATTEMPTS := by
  obtain ⟨hr, hk⟩ := fetchProxiflyAux_allUsed cfg env st.usedProxies hkey henv 4 st k rfl
    (by rw [hatt]; decide)
  unfold getNextProxiflyProxy
  rw [if_pos (by rw [hpool]; simp)]
  unfold fetchProxiflyProxies
  rw [show MAX_FETCH_ATTEMPTS - st.proxyFetchAttempts = 4 + 1 from by rw [hatt]; decide]
  rcases hF : fetchProxiflyAux cfg env true (4 + 1) st k with ⟨res, stf, kf⟩
  rw [hF] at hr hk
  dsimp only at hr hk
  subst hr
  dsimp only
  exact ⟨rfl, by rw [hk]; unfold MAX_FETCH_ATTEMPTS; omega⟩

/-- `runFreeCalls` splits over script concatenation. -/
theorem runFreeCalls_append (cfg : Config) (env : FreeEnv) :
    ∀ (s1 s2 : List Nat) (acc : CallAcc),
      runFreeCalls cfg env (s1 ++ s2) acc
        = runFreeCalls cfg env s2 (runFreeCalls cfg env s1 acc) := by
  intro s1
  induction s1 with
  | nil => intro s2 acc; rfl
  | cons r rest ih =>
    intro s2 acc
    rw [List.cons_append, runFreeCalls, runFreeCalls]
    exact ih s2 _

/-- A block of `m` consecutive `getNextFreeProxy` calls on an empty pool,
while attempts remain and every source yields zero candidates: every call
fails with the fetch-failure error (never the pool-exhausted one), each
call performs exactly one refetch pass, no record is returned, and only
`proxyFetchAttempts` advances. -/
theorem runFreeCalls_noCandidates (cfg : Config) (env : FreeEnv)
    (henv : ∀ k, ∃ s, env k = .ok s ∧ parseProxyLines s = [])
    (hlen : cfg.freeSources.length = 2) :
    ∀ (m : Nat) (acc : CallAcc),
      acc.st.freeProxyList = [] → acc.st.currentSourceIndex = 0 →
      acc.st.proxyFetchAttempts + m < MAX_FETCH_ATTEMPTS →
      (runFreeCalls cfg env (List.replicate m 0) acc).results
        = acc.results ++ List.replicate m (.error freeFetchFailMsg) ∧
      (runFreeCalls cfg env (List.replicate m 0) acc).k = acc.k + m ∧
      (runFreeCalls cfg env (List.replicate m 0) acc).st
        = { acc.st with proxyFetchAttempts := acc.st.proxyFetchAttempts + m } ∧
      (runFreeCalls cfg env (List.replicate m 0) acc).returned = acc.returned := by
  intro m
  induction m with
  | zero =>
    intro acc hpool hcsi hatt
    refine ⟨by simp [runFreeCalls], by simp [runFreeCalls], ?_, by simp [runFreeCalls]⟩
    simp only [List.replicate, runFreeCalls]
    rfl
  | succ m ih =>
    intro acc hpool hcsi hatt
    rw [List.replicate_succ, runFreeCalls]
    rw [getNextFreeProxy_noCandidates cfg env henv hlen acc.st acc.k 0 hpool hcsi
      (by unfold MAX_FETCH_ATTEMPTS at hatt ⊢; omega)]
    dsimp only [NextOut.consumed]
    obtain ⟨ihres, ihk, ihst, ihret⟩ := ih
      ⟨{ acc.st with proxyFetchAttempts := acc.st.proxyFetchAttempts + 1 }, acc.k + 1,
        acc.results ++ [.error freeFetchFailMsg], acc.returned ++ []⟩
      hpool hcsi (by unfold MAX_FETCH_ATTEMPTS at hatt ⊢; dsimp only; omega)
    dsimp only at ihres ihk ihst ihret
    refine ⟨?_, ?_, ?_, ?_⟩
    · rw [ihres, List.replicate_succ]
      simp
    · rw [ihk]
      omega
    · rw [ihst]
      have : acc.st.proxyFetchAttempts + 1 + m = acc.st.proxyFetchAttempts + (m + 1) := by
        omega
      rw [this]
    · rw [ihret, List.append_nil]

/-- Claim C3, counterexample (free-proxy-list path, the one the claim's
code citations name). With every configured source yielding zero unused
candidates, five consecutive `getNextFreeProxy` calls from the
module-initial state produce four fetch-failure errors — none of them the
pool-exhausted condition — and the pool-exhausted error only on the fifth
call, by which point exactly 4 internal refetch passes (4 fetches) have
run: the operation does not fail with the pool-exhausted condition after
exactly 5 internal refetch attempts. -/
theorem C3_counterexample :
    ((runFreeCalls defaultConfig c3Env [0, 0, 0, 0, 0] ⟨initState, 0, [], []⟩).results
      = [.error freeFetchFailMsg, .error freeFetchFailMsg, .error freeFetchFailMsg,
         .error freeFetchFailMsg, .error freeExhaustedMsg]) ∧
    ((runFreeCalls defaultConfig c3Env [0, 0, 0, 0, 0] ⟨initState, 0, [], []⟩).k = 4) ∧
    (freeFetchFailMsg ≠ freeExhaustedMsg) := by
  exact ⟨by decide, by decide, by decide⟩

/-- Claim C3 (amended). In `free-proxy-list` mode (two configured sources),
when every fetch yields zero candidates, each next-proxy call performs one
internal refetch pass and fails with the fetch-failure error; the
pool-exhausted condition (`Unable to fetch new unique proxies after 5
attempts`) surfaces on the 5th consecutive failing call, which performs no
further refetch — so exactly 4 internal refetch attempts precede it, not 5.
In `proxifly` mode the bound is as the claim states it: a single next-proxy
call on an exhausted pool performs exactly `MAX_FETCH_ATTEMPTS = 5`
internal fetch attempts before failing with the pool-exhausted condition. -/
theorem C3_exhaustion_amended :
    (∀ (cfg : Config) (env : FreeEnv),
      (∀ k, ∃ s, env k = .ok s ∧ parseProxyLines s = []) →
      cfg.freeSources.length = 2 →
      (runFreeCalls cfg env (List.replicate 4 0 ++ [0]) ⟨initState, 0, [], []⟩).results
        = List.replicate 4 (.error freeFetchFailMsg) ++ [.error freeExhaustedMsg] ∧
      (runFreeCalls cfg env (List.replicate 4 0 ++ [0]) ⟨initState, 0, [], []⟩).k = 4) ∧
    (∀ (cfg : Config) (env : PEnv) (rand : Nat) (st : PoolState) (k : Nat),
      ¬cfg.proxiflyApiKey = "" →
      st.proxiflyProxies = [] →
      st.proxyFetchAttempts = 0 →
      (∀ kk, ∃ l, env kk = .ok l ∧ ¬(l.isEmpty = true) ∧
        ∀ q ∈ l, getProxyId q ∈ st.usedProxies) →
      (getNextProxiflyProxy cfg env rand st k).result
        = .error ("Failed to fetch new proxies: " ++ proxiflyExhaustedMsg) ∧
      (getNextProxiflyProxy cfg env rand st k).k = k + MAX_FETCH_ATTEMPTS) := by
  constructor
  · intro cfg env henv hlen
    rw [runFreeCalls_append]
    obtain ⟨hres, hk, hst, _⟩ := runFreeCalls_noCandidates cfg env henv hlen 4
      ⟨initState, 0, [], []⟩ rfl rfl (by decide)
    rcases hR : runFreeCalls cfg env (List.replicate 4 0) ⟨initState, 0, [], []⟩
      with ⟨st4, k4, res4, ret4⟩
    rw [hR] at hres hk hst
    dsimp only at hres hk hst
    have h5 := getNextFreeProxy_exhausted cfg env 0 st4 k4
      (by rw [hst]; exact rfl) (by rw [hst]; decide)
    rw [show ([0] : List Nat) = 0 :: [] from rfl, runFreeCalls, h5, runFreeCalls]
    dsimp only [NextOut.consumed]
    constructor
    · rw [hres]
      simp
    · exact hk
  · intro cfg env rand st k hkey hpool hatt henv
    exact getNextProxifly_allUsed cfg env rand st k hkey hpool hatt henv

/-- Witness for the amended C3 theorem: the free half at the concrete
zero-candidate environment, the Proxifly half at the concrete all-used
environment. -/
theorem C3_exhaustion_amended_witness :
    ((runFreeCalls defaultConfig c3Env (List.replicate 4 0 ++ [0])
      ⟨initState, 0, [], []⟩).k = 4) ∧
    ((getNextProxiflyProxy { defaultConfig with proxiflyApiKey := "KEY" } c3PEnv 0
      c3PState 0).k = 0 + MAX_FETCH_ATTEMPTS) := by
  have henvF : ∀ k, ∃ s, c3Env k = .ok s ∧ parseProxyLines s = [] :=
    fun k => ⟨"", rfl, by decide⟩
  have henvP : ∀ kk, ∃ l, c3PEnv kk = .ok l ∧ ¬(l.isEmpty = true) ∧
      ∀ q ∈ l, getProxyId q ∈ c3PState.usedProxies := by
    intro kk
    refine ⟨[{ ipPort := some "7.7.7.7:80" }], rfl, by decide, ?_⟩
    intro q hq
    rw [List.mem_singleton.mp hq]
    decide
  constructor
  · exact (C3_exhaustion_amended.1 defaultConfig c3Env henvF (by decide)).2
  · exact (C3_exhaustion_amended.2 { defaultConfig with proxiflyApiKey := "KEY" } c3PEnv 0
      c3PState 0 (by decide) rfl rfl henvP).2

/-- Claim C2. `new Worker(__filename, ...)` (code.js 934-939) re-evaluates
the module in each worker thread, so every worker owns a fresh copy of
`usedProxies`/`freeProxyList` (lines 102-110) and of `CONFIG`; the worker
entry (lines 864-880) then runs `scrapeWithRetry` against that private
replica. Two workers of one concurrent run that fetch the same CDN listing
therefore both consume the identity `2.2.2.2:80`, each registering it only
in its own replica — the registry is not a single shared instance and the
no-repeat guarantee does not hold across concurrently executing workers,
contradicting the code's own header documentation (`Tracks all used proxies
to ensure no repetition`, lines 8, 19). -/
theorem C2_replicated_registry :
    ((workerThreadRun defaultConfig (c2Oracles 1) c2FEnv (fun _ => .error "x")
      "url").trace.proxies.map getProxyId = ["2.2.2.2:80"]) ∧
    ((workerThreadRun defaultConfig (c2Oracles 2) c2FEnv (fun _ => .error "x")
      "url").trace.proxies.map getProxyId = ["2.2.2.2:80"]) ∧
    ("2.2.2.2:80" ∈ (workerThreadRun defaultConfig (c2Oracles 1) c2FEnv (fun _ => .error "x")
      "url").st.usedProxies) ∧
    ("2.2.2.2:80" ∈ (workerThreadRun defaultConfig (c2Oracles 2) c2FEnv (fun _ => .error "x")
      "url").st.usedProxies) := by
  exact ⟨by decide, by decide, by decide, by decide⟩

/-- The startup fallback mutates only `proxyMode`; the dispatch-relevant
numbers survive. -/
theorem startupProxyFetch_preserves (cfg : Config) (fenv : FreeEnv) (penv : PEnv) :
    (startupProxyFetch cfg fenv penv).cfg.totalRequests = cfg.totalRequests ∧
    (startupProxyFetch cfg fenv penv).cfg.maxConcurrent = cfg.maxConcurrent := by
  unfold startupProxyFetch
  by_cases h1 : cfg.proxyMode = "proxifly"
  · rw [if_pos h1]
    rcases hF : fetchProxiflyProxies cfg penv true initState 0 with ⟨res, st1, k1⟩
    rcases res with e | u
    · exact ⟨rfl, rfl⟩
    · exact ⟨rfl, rfl⟩
  · rw [if_neg h1]
    by_cases h2 : cfg.proxyMode = "free-proxy-list"
    · rw [if_pos h2]
      rcases hF : fetchFreeProxyList cfg.freeSources fenv initState 0 0 with ⟨res, st1, k1⟩
      rcases res with e | u
      · exact ⟨rfl, rfl⟩
      · exact ⟨rfl, rfl⟩
    · rw [if_neg h2]
      exact ⟨rfl, rfl⟩

/-- Tally bookkeeping: every result counts once in `total` and once in
exactly one of `successful`/`failed`. -/
theorem tallyStats_spec (results : List ScrapeResult) :
    (tallyStats results).total = results.length ∧
    (tallyStats results).successful + (tallyStats results).failed = results.length := by
  have hgo : ∀ (rs : List ScrapeResult) (s : Stats),
      (List.foldl (fun s r =>
        match r with
        | .ok .. => { s with successful := s.successful + 1, total := s.total + 1 }
        | .fail .. => { s with failed := s.failed + 1, total := s.total + 1 }) s rs).total
        = s.total + rs.length ∧
      (List.foldl (fun s r =>
        match r with
        | .ok .. => { s with successful := s.successful + 1, total := s.total + 1 }
        | .fail .. => { s with failed := s.failed + 1, total := s.total + 1 }) s rs).successful
        + (List.foldl (fun s r =>
        match r with
        | .ok .. => { s with successful := s.successful + 1, total := s.total + 1 }
        | .fail .. => { s with failed := s.failed + 1, total := s.total + 1 }) s rs).failed
        = s.successful + s.failed + rs.length := by
    intro rs
    induction rs with
    | nil => intro s; exact ⟨rfl, rfl⟩
    | cons r rest ih =>
      intro s
      rcases r with _ | _
      all_goals {
        simp only [List.foldl_cons, List.length_cons]
        obtain ⟨iht, ihs⟩ := ih _
        constructor
        · rw [iht]; dsimp only; omega
        · rw [ihs]; dsimp only; omega
      }
  obtain ⟨h1, h2⟩ := hgo results ⟨0, 0, 0⟩
  constructor
  · rw [tallyStats, h1]
    simp
  · rw [tallyStats, h2]
    simp

/-- The sequential loop produces exactly one outcome per requested unit. -/
theorem runSequentialLoop_length (cfg : Config) (o : Oracles) (fenv : FreeEnv)
    (penv : PEnv) (url : String) :
    ∀ (n : Nat) (st : PoolState) (kf kp t : Nat),
      (runSequentialLoop cfg o fenv penv url n st kf kp t).length = n := by
  intro n
  induction n with
  | zero => intro st kf kp t; rfl
  | succ n ih =>
    intro st kf kp t
    rw [runSequentialLoop]
    simp only [List.length_cons]
    rw [ih]

/-- The sequential dispatcher processes every requested unit to a terminal
tallied result, whatever the oracles do. -/
theorem runSequential_total (cfg : Config) (o : Oracles) (fenv : FreeEnv)
    (penv : PEnv) (url : String) :
    (runSequentialScraping cfg o fenv penv url).stats.total = cfg.totalRequests ∧
    (runSequentialScraping cfg o fenv penv url).stats.successful
      + (runSequentialScraping cfg o fenv penv url).stats.failed = cfg.totalRequests := by
  obtain ⟨htot, hmax⟩ := startupProxyFetch_preserves cfg fenv penv
  unfold runSequentialScraping
  dsimp only
  obtain ⟨h1, h2⟩ := tallyStats_spec
    ((runSequentialLoop (startupProxyFetch cfg fenv penv).cfg o fenv penv url
      (startupProxyFetch cfg fenv penv).cfg.totalRequests
      (startupProxyFetch cfg fenv penv).st (startupProxyFetch cfg fenv penv).kf
      (startupProxyFetch cfg fenv penv).kp 0).map ScrapeOut.result)
  rw [h1, h2, List.length_map, runSequentialLoop_length, htot]
  exact ⟨rfl, rfl⟩

/-- The concurrent dispatcher launches exactly `totalRequests` workers and
tallies exactly one terminal result per worker, whatever the oracles do. -/
theorem runConcurrent_total (cfg : Config) (o : Nat → Oracles)
    (fenv : Nat → FreeEnv) (penv : Nat → PEnv)
    (fenvMain : FreeEnv) (penvMain : PEnv) (url : String)
    (hc : 0 < cfg.maxConcurrent) :
    (runConcurrentScraping cfg o fenv penv fenvMain penvMain url).stats.total
      = cfg.totalRequests ∧
    (runConcurrentScraping cfg o fenv penv fenvMain penvMain url).stats.successful
      + (runConcurrentScraping cfg o fenv penv fenvMain penvMain url).stats.failed
      = cfg.totalRequests := by
  unfold runConcurrentScraping
  dsimp only
  obtain ⟨h1, h2⟩ := tallyStats_spec
    ((((allBatches cfg.totalRequests cfg.maxConcurrent).flatten).map
      (fun w => workerThreadRun cfg (o w) (fenv w) (penv w) url)).map ScrapeOut.result)
  rw [h1, h2, List.length_map, List.length_map,
    allBatches_flatten cfg.totalRequests cfg.maxConcurrent hc, List.length_range]
  exact ⟨rfl, rfl⟩

/-- Claim C7: `scrapeWithRetry` converts every failure into the typed
failure record before returning (its embedding is a total function into
`ScrapeResult`, mirroring the catch block of code.js lines 835-860, and the
worker entry of lines 864-880 posts that record), so the run-level loops
are failure-proof: for every environment and oracle behavior — units may
exhaust retries or fail at once — both dispatchers still tally exactly one
terminal result per requested unit, `total = totalRequests` and
`successful + failed = total`; one unit's failure only degrades the
statistics. -/
theorem C7_typed_result_propagation :
    ∀ (cfg : Config) (o : Oracles) (oW : Nat → Oracles) (fenv : FreeEnv) (penv : PEnv)
      (fenvW : Nat → FreeEnv) (penvW : Nat → PEnv) (url : String),
      ((runSequentialScraping cfg o fenv penv url).stats.total = cfg.totalRequests ∧
        (runSequentialScraping cfg o fenv penv url).stats.successful
          + (runSequentialScraping cfg o fenv penv url).stats.failed = cfg.totalRequests) ∧
      (0 < cfg.maxConcurrent →
        (runConcurrentScraping cfg oW fenvW penvW fenv penv url).stats.total
          = cfg.totalRequests ∧
        (runConcurrentScraping cfg oW fenvW penvW fenv penv url).stats.successful
          + (runConcurrentScraping cfg oW fenvW penvW fenv penv url).stats.failed
          = cfg.totalRequests) := by
  intro cfg o oW fenv penv fenvW penvW url
  exact ⟨runSequential_total cfg o fenv penv url,
    fun hc => runConcurrent_total cfg oW fenvW penvW fenv penv url hc⟩

/-- Witness for C7: a concurrent run of 3 units across batches of 2 whose
every unit fails terminally still tallies all 3 units. -/
theorem C7_typed_result_propagation_witness :
    (0 < 2) ∧
    (runConcurrentScraping { defaultConfig with totalRequests := 3, maxConcurrent := 2 }
      (fun _ => c7Oracles) (fun _ => fun _ => .error "x") (fun _ => fun _ => .error "x")
      (fun _ => .error "x") (fun _ => .error "x") "url").stats.total = 3 := by
  refine ⟨by decide, ?_⟩
  exact ((C7_typed_result_propagation
    { defaultConfig with totalRequests := 3, maxConcurrent := 2 }
    c7Oracles (fun _ => c7Oracles) (fun _ => .error "x") (fun _ => .error "x")
    (fun _ => fun _ => .error "x") (fun _ => fun _ => .error "x") "url").2 (by decide)).1

/-- With `proxyMode = 'proxifly'` and no API key, the startup fetch throws
the missing-credential error, which is caught: the run mutates `proxyMode`
to `'none'` and proceeds (code.js lines 900-908, 1026-1034). -/
theorem startupProxyFetch_missing_key (cfg : Config) (fenv : FreeEnv) (penv : PEnv)
    (hmode : cfg.proxyMode = "proxifly") (hkey : cfg.proxiflyApiKey = "") :
    (startupProxyFetch cfg fenv penv).cfg = { cfg with proxyMode := "none" } := by
  unfold startupProxyFetch
  rw [if_pos hmode]
  unfold fetchProxiflyProxies
  rw [fetchProxiflyAux]
  rw [if_pos hkey]

/-- Claim C6, counterexample. A missing credential for authenticated
pooling does not abort the run before dispatch: the startup fetch throws,
the error is caught, `proxyMode` is mutated to `'none'` and all
`totalRequests` work units are dispatched and complete (code.js lines
1026-1034, 1052-1071). There is no startup configuration validation. -/
theorem C6_counterexample :
    ((runSequentialScraping c6Cfg c6Oracles (fun _ => .error "x") (fun _ => .error "x")
      "url").cfg.proxyMode = "none") ∧
    ((runSequentialScraping c6Cfg c6Oracles (fun _ => .error "x") (fun _ => .error "x")
      "url").stats.total = 2) ∧
    ((runSequentialScraping c6Cfg c6Oracles (fun _ => .error "x") (fun _ => .error "x")
      "url").stats.successful = 2) := by
  exact ⟨by decide, by decide, by decide⟩

/-- Claim C6 (amended): the code performs no fail-fast configuration
validation. (i) A missing credential for authenticated pooling surfaces at
the startup fetch, is caught there, and the run continues with `proxyMode`
mutated to `'none'`, dispatching every one of its `totalRequests` units —
it never aborts before dispatch. (ii) A backoff schedule shorter than
`maxRetries` is likewise never validated: the run still dispatches every
unit, an always-retrying unit still performs all `maxRetries + 1`
attempts, and `backoffDelays[retryCount]` is simply read mid-run
(`getD retryCount 0`), an out-of-range read sleeping the 0 default of
JavaScript's undefined delay. -/
theorem C6_no_failfast_amended :
    (∀ (cfg : Config) (o : Oracles) (fenv : FreeEnv) (penv : PEnv) (url : String),
      cfg.proxyMode = "proxifly" → cfg.proxiflyApiKey = "" →
      ((runSequentialScraping cfg o fenv penv url).cfg.proxyMode = "none") ∧
      ((runSequentialScraping cfg o fenv penv url).stats.total = cfg.totalRequests)) ∧
    (∀ (cfg : Config) (o : Oracles) (fenv : FreeEnv) (penv : PEnv) (url : String)
        (st : PoolState) (kf kp t : Nat),
      cfg.backoffDelays.length < cfg.maxRetries →
      cfg.proxyMode = "none" →
      (∀ tt, o.ua tt ≠ "") →
      (∀ tt, ∃ e, o.outcome tt = .thrown e ∧ retryableErr e = true) →
      ((runSequentialScraping cfg o fenv penv url).stats.total = cfg.totalRequests) ∧
      ((scrapeWithRetry cfg o fenv penv url 0 st kf kp t).trace.attempts
        = cfg.maxRetries + 1) ∧
      ((scrapeWithRetry cfg o fenv penv url 0 st kf kp t).trace.delays
        = (List.range cfg.maxRetries).map (fun j => cfg.backoffDelays.getD j 0))) := by
  constructor
  · intro cfg o fenv penv url hmode hkey
    constructor
    · show (runSequentialScraping cfg o fenv penv url).cfg.proxyMode = "none"
      unfold runSequentialScraping
      dsimp only
      rw [startupProxyFetch_missing_key cfg fenv penv hmode hkey]
    · exact (runSequential_total cfg o fenv penv url).1
  · intro cfg o fenv penv url st kf kp t hshort hmode hua hfail
    obtain ⟨hr, hd, ha, hs⟩ := scrapeAux_all_retryable cfg o fenv penv url hmode hua hfail
      cfg.maxRetries 0 (by omega) st kf kp t
    have hgas : cfg.maxRetries + 1 - 0 = cfg.maxRetries + 1 := by omega
    refine ⟨(runSequential_total cfg o fenv penv url).1, ?_, ?_⟩
    · rw [scrapeWithRetry, hgas]
      exact ha
    · rw [scrapeWithRetry, hgas, hd]
      have hfun : (fun j => cfg.backoffDelays.getD (0 + j) 0)
          = (fun j => cfg.backoffDelays.getD j 0) := by
        funext j
        rw [Nat.zero_add]
      rw [hfun]

/-- Witness for the amended C6 theorem: the concrete credential-less
configuration, and a schedule of 1 delay against 2 allowed retries whose
always-failing unit sleeps 100 then the 0 default. -/
theorem C6_no_failfast_amended_witness :
    ((c6Cfg.proxyMode = "proxifly" ∧ c6Cfg.proxiflyApiKey = "") ∧
      (runSequentialScraping c6Cfg c6Oracles (fun _ => .error "x") (fun _ => .error "x")
        "url").stats.total = c6Cfg.totalRequests) ∧
    ((c6ShortCfg.backoffDelays.length < c6ShortCfg.maxRetries ∧
        c6ShortCfg.proxyMode = "none") ∧
      (scrapeWithRetry c6ShortCfg c6RetryOracles (fun _ => .error "x")
        (fun _ => .error "x") "url" 0 initState 0 0 0).trace.delays = [100, 0]) := by
  have hua : ∀ tt, c6RetryOracles.ua tt ≠ "" := fun tt => by simp [c6RetryOracles]
  have hfail : ∀ tt, ∃ e, c6RetryOracles.outcome tt = .thrown e ∧ retryableErr e = true :=
    fun tt => ⟨⟨"Navigation timeout exceeded", "TimeoutError"⟩, rfl, by decide⟩
  refine ⟨⟨⟨rfl, rfl⟩, ?_⟩, ⟨⟨by decide, rfl⟩, ?_⟩⟩
  · exact (C6_no_failfast_amended.1 c6Cfg c6Oracles (fun _ => .error "x")
      (fun _ => .error "x") "url" rfl rfl).2
  · have h := (C6_no_failfast_amended.2 c6ShortCfg c6RetryOracles (fun _ => .error "x")
      (fun _ => .error "x") "url" initState 0 0 0 (by decide) rfl hua hfail).2.2
    rw [h]
    decide

/-- In `free-proxy-list` mode, a `scrapeWithRetry` run (entered at any
`retryCount`) preserves the free-run invariant with the run's consumed
proxies appended, and its event trace is a sequence of
consume-then-execute blocks: every attempt that reaches the Task Executor
obtained a fresh pool assignment immediately before, retries included. -/
theorem scrapeAux_freeMode (cfg : Config) (o : Oracles) (fenv : FreeEnv)
    (penv : PEnv) (url : String)
    (hmode : cfg.proxyMode = "free-proxy-list")
    (henv : DupFreeFreeEnv fenv) :
    ∀ (gas rc : Nat) (st : PoolState) (kf kp t : Nat) (returned : List Proxy),
      FreeInv cfg st returned →
      FreeInv cfg (scrapeWithRetryAux cfg o fenv penv url gas rc st kf kp t).st
        (returned ++ (scrapeWithRetryAux cfg o fenv penv url gas rc st kf kp t).trace.proxies) ∧
      isConsumeExecSeq (scrapeWithRetryAux cfg o fenv penv url gas rc st kf kp t).trace.events
        = true := by
  intro gas
  induction gas with
  | zero =>
    intro rc st kf kp t returned hinv
    rw [scrapeWithRetryAux]
    by_cases hua : o.ua t = ""
    · rw [scrapeAttempt_ua_empty cfg o fenv penv rc st kf kp t hua]
      dsimp only
      split
      · exact ⟨by simpa using hinv, rfl⟩
      · exact ⟨by simpa using hinv, rfl⟩
    · rcases hres : (getNextFreeProxy cfg fenv (o.rand t) st kf).result with e | p
      · rw [scrapeAttempt_free_err cfg o fenv penv rc st kf kp t hmode hua e hres]
        dsimp only
        have hinv2 := getNextFreeProxy_inv cfg fenv (o.rand t) st kf returned henv hinv
        have hcons : (getNextFreeProxy cfg fenv (o.rand t) st kf).consumed = [] := by
          unfold NextOut.consumed
          rw [hres]
        rw [hcons, List.append_nil] at hinv2
        split
        · exact ⟨by simpa using hinv2, rfl⟩
        · exact ⟨by simpa using hinv2, rfl⟩
      · obtain ⟨hst, hkf, hkp, hcons, hevs⟩ :=
          scrapeAttempt_free_ok cfg o fenv penv rc st kf kp t hmode hua p hres
        have hinv2 := getNextFreeProxy_inv cfg fenv (o.rand t) st kf returned henv hinv
        have hconsN : (getNextFreeProxy cfg fenv (o.rand t) st kf).consumed = [p] := by
          unfold NextOut.consumed
          rw [hres]
        rw [hconsN] at hinv2
        rcases hA : scrapeAttempt cfg o fenv penv rc st kf kp t
          with ⟨ares, ast, akf, akp, acons, aevs⟩
        rw [hA] at hst hkf hkp hcons hevs
        dsimp only at hst hkf hkp hcons hevs
        subst hst hkf hkp hcons hevs
        dsimp only
        rcases ares with e2 | r
        · dsimp only
          split
          · exact ⟨hinv2, rfl⟩
          · exact ⟨hinv2, rfl⟩
        · dsimp only
          exact ⟨hinv2, rfl⟩
  | succ gas1 ih =>
    intro rc st kf kp t returned hinv
    rw [scrapeWithRetryAux]
    by_cases hua : o.ua t = ""
    · rw [scrapeAttempt_ua_empty cfg o fenv penv rc st kf kp t hua]
      dsimp only
      split
      · dsimp only
        rcases hR : scrapeWithRetryAux cfg o fenv penv url gas1 (rc + 1) st kf kp (t + 1)
          with ⟨res1, st2, kf2, kp2, t2, ⟨delays1, proxies1, attempts1, events1⟩⟩
        obtain ⟨ih1, ih2⟩ := ih (rc + 1) st kf kp (t + 1) returned hinv
        rw [hR] at ih1 ih2
        dsimp only at ih1 ih2
        exact ⟨by simpa using ih1, by simpa using ih2⟩
      · exact ⟨by simpa using hinv, rfl⟩
    · rcases hres : (getNextFreeProxy cfg fenv (o.rand t) st kf).result with e | p
      · rw [scrapeAttempt_free_err cfg o fenv penv rc st kf kp t hmode hua e hres]
        dsimp only
        have hinv2 := getNextFreeProxy_inv cfg fenv (o.rand t) st kf returned henv hinv
        have hcons : (getNextFreeProxy cfg fenv (o.rand t) st kf).consumed = [] := by
          unfold NextOut.consumed
          rw [hres]
        rw [hcons, List.append_nil] at hinv2
        split
        · dsimp only
          rcases hR : scrapeWithRetryAux cfg o fenv penv url gas1 (rc + 1)
              (getNextFreeProxy cfg fenv (o.rand t) st kf).st
              (getNextFreeProxy cfg fenv (o.rand t) st kf).k kp (t + 1)
            with ⟨res1, st2, kf2, kp2, t2, ⟨delays1, proxies1, attempts1, events1⟩⟩
          obtain ⟨ih1, ih2⟩ := ih (rc + 1) (getNextFreeProxy cfg fenv (o.rand t) st kf).st
            (getNextFreeProxy cfg fenv (o.rand t) st kf).k kp (t + 1) returned hinv2
          rw [hR] at ih1 ih2
          dsimp only at ih1 ih2
          exact ⟨by simpa using ih1, by simpa using ih2⟩
        · exact ⟨by simpa using hinv2, rfl⟩
      · obtain ⟨hst, hkf, hkp, hcons, hevs⟩ :=
          scrapeAttempt_free_ok cfg o fenv penv rc st kf kp t hmode hua p hres
        have hinv2 := getNextFreeProxy_inv cfg fenv (o.rand t) st kf returned henv hinv
        have hconsN : (getNextFreeProxy cfg fenv (o.rand t) st kf).consumed = [p] := by
          unfold NextOut.consumed
          rw [hres]
        rw [hconsN] at hinv2
        rcases hA : scrapeAttempt cfg o fenv penv rc st kf kp t
          with ⟨ares, ast, akf, akp, acons, aevs⟩
        rw [hA] at hst hkf hkp hcons hevs
        dsimp only at hst hkf hkp hcons hevs
        subst hst hkf hkp hcons hevs
        dsimp only
        rcases ares with e2 | r
        · dsimp only
          split
          · dsimp only
            rcases hR : scrapeWithRetryAux cfg o fenv penv url gas1 (rc + 1)
                (getNextFreeProxy cfg fenv (o.rand t) st kf).st
                (getNextFreeProxy cfg fenv (o.rand t) st kf).k akp (t + 1)
              with ⟨res1, st2, kf2, kp2, t2, ⟨delays1, proxies1, attempts1, events1⟩⟩
            obtain ⟨ih1, ih2⟩ := ih (rc + 1) (getNextFreeProxy cfg fenv (o.rand t) st kf).st
              (getNextFreeProxy cfg fenv (o.rand t) st kf).k akp (t + 1) (returned ++ [p]) hinv2
            rw [hR] at ih1 ih2
            dsimp only at ih1 ih2
            constructor
            · rw [← List.append_assoc]
              exact ih1
            · simpa [isConsumeExecSeq] using ih2
          · exact ⟨hinv2, rfl⟩
        · dsimp only
          exact ⟨hinv2, rfl⟩

/-- In mode "none" a `scrapeWithRetry` run, entered at any retry count,
never touches either proxy pool: it consumes no proxy records and leaves
the pool state and both fetch counters unchanged. -/
theorem scrapeAux_none_no_proxy (cfg : Config) (o : Oracles) (fenv : FreeEnv)
    (penv : PEnv) (url : String) (hmode : cfg.proxyMode = "none") :
    ∀ (gas rc : Nat) (st : PoolState) (kf kp t : Nat),
      (scrapeWithRetryAux cfg o fenv penv url gas rc st kf kp t).trace.proxies = [] ∧
      (scrapeWithRetryAux cfg o fenv penv url gas rc st kf kp t).st = st ∧
      (scrapeWithRetryAux cfg o fenv penv url gas rc st kf kp t).kf = kf ∧
      (scrapeWithRetryAux cfg o fenv penv url gas rc st kf kp t).kp = kp := by
  intro gas
  induction gas with
  | zero =>
    intro rc st kf kp t
    rw [scrapeWithRetryAux]
    by_cases hua : o.ua t = ""
    · rw [scrapeAttempt_ua_empty cfg o fenv penv rc st kf kp t hua]
      dsimp only
      split
      · exact ⟨rfl, rfl, rfl, rfl⟩
      · exact ⟨rfl, rfl, rfl, rfl⟩
    · rw [scrapeAttempt_none_eq cfg o fenv penv rc st kf kp t hmode hua]
      rcases ho : o.outcome t with e | ⟨status, title, finalUrl, viewCount, contentLength⟩
      · dsimp only
        split
        · exact ⟨rfl, rfl, rfl, rfl⟩
        · exact ⟨rfl, rfl, rfl, rfl⟩
      · dsimp only
        by_cases h400 : 400 ≤ status
        · rw [if_pos h400]
          by_cases hcode : (status = 429 ∨ 500 ≤ status) ∧ rc < cfg.maxRetries
          · rw [if_pos hcode]
            dsimp only
            split
            · exact ⟨rfl, rfl, rfl, rfl⟩
            · exact ⟨rfl, rfl, rfl, rfl⟩
          · rw [if_neg hcode]
            dsimp only
            split
            · exact ⟨rfl, rfl, rfl, rfl⟩
            · exact ⟨rfl, rfl, rfl, rfl⟩
        · rw [if_neg h400]
          exact ⟨rfl, rfl, rfl, rfl⟩
  | succ gas1 ih =>
    intro rc st kf kp t
    rw [scrapeWithRetryAux]
    by_cases hua : o.ua t = ""
    · rw [scrapeAttempt_ua_empty cfg o fenv penv rc st kf kp t hua]
      dsimp only
      split
      · dsimp only
        rcases hR : scrapeWithRetryAux cfg o fenv penv url gas1 (rc + 1) st kf kp (t + 1)
          with ⟨res1, st2, kf2, kp2, t2, ⟨delays1, proxies1, attempts1, events1⟩⟩
        obtain ⟨ih1, ih2, ih3, ih4⟩ := ih (rc + 1) st kf kp (t + 1)
        rw [hR] at ih1 ih2 ih3 ih4
        dsimp only at ih1 ih2 ih3 ih4
        exact ⟨by simpa using ih1, ih2, ih3, ih4⟩
      · exact ⟨rfl, rfl, rfl, rfl⟩
    · rw [scrapeAttempt_none_eq cfg o fenv penv rc st kf kp t hmode hua]
      rcases ho : o.outcome t with e | ⟨status, title, finalUrl, viewCount, contentLength⟩
      · dsimp only
        split
        · dsimp only
          rcases hR : scrapeWithRetryAux cfg o fenv penv url gas1 (rc + 1) st kf kp (t + 1)
            with ⟨res1, st2, kf2, kp2, t2, ⟨delays1, proxies1, attempts1, events1⟩⟩
          obtain ⟨ih1, ih2, ih3, ih4⟩ := ih (rc + 1) st kf kp (t + 1)
          rw [hR] at ih1 ih2 ih3 ih4
          dsimp only at ih1 ih2 ih3 ih4
          exact ⟨by simpa using ih1, ih2, ih3, ih4⟩
        · exact ⟨rfl, rfl, rfl, rfl⟩
      · dsimp only
        by_cases h400 : 400 ≤ status
        · rw [if_pos h400]
          by_cases hcode : (status = 429 ∨ 500 ≤ status) ∧ rc < cfg.maxRetries
          · rw [if_pos hcode]
            dsimp only
            split
            · dsimp only
              rcases hR : scrapeWithRetryAux cfg o fenv penv url gas1 (rc + 1) st kf kp (t + 1)
                with ⟨res1, st2, kf2, kp2, t2, ⟨delays1, proxies1, attempts1, events1⟩⟩
              obtain ⟨ih1, ih2, ih3, ih4⟩ := ih (rc + 1) st kf kp (t + 1)
              rw [hR] at ih1 ih2 ih3 ih4
              dsimp only at ih1 ih2 ih3 ih4
              exact ⟨by simpa using ih1, ih2, ih3, ih4⟩
            · exact ⟨rfl, rfl, rfl, rfl⟩
          · rw [if_neg hcode]
            dsimp only
            split
            · dsimp only
              rcases hR : scrapeWithRetryAux cfg o fenv penv url gas1 (rc + 1) st kf kp (t + 1)
                with ⟨res1, st2, kf2, kp2, t2, ⟨delays1, proxies1, attempts1, events1⟩⟩
              obtain ⟨ih1, ih2, ih3, ih4⟩ := ih (rc + 1) st kf kp (t + 1)
              rw [hR] at ih1 ih2 ih3 ih4
              dsimp only at ih1 ih2 ih3 ih4
              exact ⟨by simpa using ih1, ih2, ih3, ih4⟩
            · exact ⟨rfl, rfl, rfl, rfl⟩
        · rw [if_neg h400]
          exact ⟨rfl, rfl, rfl, rfl⟩

/-- Under the sequential dispatcher in mode "none", every work unit runs
with no proxy record at all: direct connections throughout. -/
theorem runSequentialLoop_none_no_proxy (cfg : Config) (o : Oracles) (fenv : FreeEnv)
    (penv : PEnv) (url : String) (hmode : cfg.proxyMode = "none") :
    ∀ (n : Nat) (st : PoolState) (kf kp t : Nat),
      ∀ out ∈ runSequentialLoop cfg o fenv penv url n st kf kp t,
        out.trace.proxies = [] := by
  intro n
  induction n with
  | zero =>
    intro st kf kp t out hout
    simp [runSequentialLoop] at hout
  | succ n ih =>
    intro st kf kp t out hout
    rw [runSequentialLoop] at hout
    rcases List.mem_cons.mp hout with h1 | h2
    · subst h1
      exact (scrapeAux_none_no_proxy cfg o fenv penv url hmode
        (cfg.maxRetries + 1 - 0) 0 st kf kp t).1
    · exact ih _ _ _ _ out h2

/-- In `free-proxy-list` mode, when the startup fetch throws, both
dispatchers catch the error and mutate `proxyMode` to `'none'`
(code.js lines 918-922, 1044-1048). -/
theorem startupProxyFetch_free_fail (cfg : Config) (fenv : FreeEnv) (penv : PEnv)
    (hmode : cfg.proxyMode = "free-proxy-list") (e : String)
    (hfail : (fetchFreeProxyList cfg.freeSources fenv initState 0 0).result = .error e) :
    (startupProxyFetch cfg fenv penv).cfg = { cfg with proxyMode := "none" } := by
  unfold startupProxyFetch
  rw [if_neg (show ¬(cfg.proxyMode = "proxifly") from by rw [hmode]; decide)]
  rw [if_pos hmode]
  dsimp only
  rcases hF : fetchFreeProxyList cfg.freeSources fenv initState 0 0 with ⟨res, st1, k1⟩
  rw [hF] at hfail
  dsimp only at hfail
  subst hfail
  rfl

/-- In `proxifly` mode, when the startup fetch throws, both dispatchers
catch the error and mutate `proxyMode` to `'none'` (code.js lines 918-922,
1044-1048). -/
theorem startupProxyFetch_proxifly_fail (cfg : Config) (fenv : FreeEnv) (penv : PEnv)
    (hmode : cfg.proxyMode = "proxifly") (e : String)
    (hfail : (fetchProxiflyProxies cfg penv true initState 0).result = .error e) :
    (startupProxyFetch cfg fenv penv).cfg = { cfg with proxyMode := "none" } := by
  unfold startupProxyFetch
  rw [if_pos hmode]
  dsimp only
  rcases hF : fetchProxiflyProxies cfg penv true initState 0 with ⟨res, st1, k1⟩
  rw [hF] at hfail
  dsimp only at hfail
  subst hfail
  rfl

/-- Claim C10, counterexample. In the concurrent dispatcher the fallback
does not confine the workload to the mode-`'none'` path: the startup fetch
fails and the coordinating thread mutates its `proxyMode` to `'none'`, but
each worker re-evaluates the module with the source-literal `CONFIG`
(`proxyMode: 'free-proxy-list'`) and a fresh pool, so the work unit still
drives the pooled acquisition path and consumes a pool record
(code.js lines 864-880, 934-939) — the mutation never reaches it. -/
theorem C10_counterexample :
    (runConcurrentScraping c10Cfg (fun _ => c10Oracles) (fun _ => c10WEnv)
      (fun _ => fun _ => .error "x") c10FailEnv (fun _ => .error "x")
      "url").cfg.proxyMode = "none" ∧
    ((runConcurrentScraping c10Cfg (fun _ => c10Oracles) (fun _ => c10WEnv)
      (fun _ => fun _ => .error "x") c10FailEnv (fun _ => .error "x")
      "url").outs.map (fun out => out.trace.proxies.map getProxyId))
      = [["4.4.4.4:80"]] := by
  exact ⟨by decide, by decide⟩

/-- Claim C10 (amended): if the startup proxy fetch of either pooled mode
throws, the run does not abort — the error is caught, `proxyMode` is
mutated to `'none'` and every requested unit is still dispatched to a
tallied terminal result, in both dispatchers. In the sequential dispatcher
the whole workload then runs with no proxy record at all (direct
connections); in the concurrent dispatcher the mutation only affects the
coordinating thread's `CONFIG` — workers re-evaluate the module with the
source-literal `CONFIG` and still drive its pooled acquisition path, so
the fallback does not confine their units to the mode-`'none'` path. -/
theorem C10_direct_fallback_amended :
    (∀ (cfg : Config) (o : Oracles) (fenv : FreeEnv) (penv : PEnv) (url e : String),
      cfg.proxyMode = "free-proxy-list" →
      (fetchFreeProxyList cfg.freeSources fenv initState 0 0).result = .error e →
      (runSequentialScraping cfg o fenv penv url).cfg.proxyMode = "none" ∧
      (runSequentialScraping cfg o fenv penv url).stats.total = cfg.totalRequests ∧
      ∀ out ∈ (runSequentialScraping cfg o fenv penv url).outs,
        out.trace.proxies = []) ∧
    (∀ (cfg : Config) (o : Oracles) (fenv : FreeEnv) (penv : PEnv) (url e : String),
      cfg.proxyMode = "proxifly" →
      (fetchProxiflyProxies cfg penv true initState 0).result = .error e →
      (runSequentialScraping cfg o fenv penv url).cfg.proxyMode = "none" ∧
      (runSequentialScraping cfg o fenv penv url).stats.total = cfg.totalRequests ∧
      ∀ out ∈ (runSequentialScraping cfg o fenv penv url).outs,
        out.trace.proxies = []) ∧
    (∀ (cfg : Config) (o : Nat → Oracles) (fenvW : Nat → FreeEnv) (penvW : Nat → PEnv)
        (fenvMain : FreeEnv) (penvMain : PEnv) (url e : String),
      cfg.proxyMode = "free-proxy-list" →
      (fetchFreeProxyList cfg.freeSources fenvMain initState 0 0).result = .error e →
      (runConcurrentScraping cfg o fenvW penvW fenvMain penvMain url).cfg.proxyMode
        = "none" ∧
      (0 < cfg.maxConcurrent →
        (runConcurrentScraping cfg o fenvW penvW fenvMain penvMain url).stats.total
          = cfg.totalRequests)) ∧
    (∀ (cfg : Config) (o : Nat → Oracles) (fenvW : Nat → FreeEnv) (penvW : Nat → PEnv)
        (fenvMain : FreeEnv) (penvMain : PEnv) (url e : String),
      cfg.proxyMode = "proxifly" →
      (fetchProxiflyProxies cfg penvMain true initState 0).result = .error e →
      (runConcurrentScraping cfg o fenvW penvW fenvMain penvMain url).cfg.proxyMode
        = "none" ∧
      (0 < cfg.maxConcurrent →
        (runConcurrentScraping cfg o fenvW penvW fenvMain penvMain url).stats.total
          = cfg.totalRequests)) := by
  refine ⟨?_, ?_, ?_, ?_⟩
  · intro cfg o fenv penv url e hmode hfail
    have hcfg := startupProxyFetch_free_fail cfg fenv penv hmode e hfail
    refine ⟨?_, (runSequential_total cfg o fenv penv url).1, ?_⟩
    · unfold runSequentialScraping
      dsimp only
      rw [hcfg]
    · intro out hout
      unfold runSequentialScraping at hout
      dsimp only at hout
      rw [hcfg] at hout
      exact runSequentialLoop_none_no_proxy { cfg with proxyMode := "none" }
        o fenv penv url rfl _ _ _ _ _ out hout
  · intro cfg o fenv penv url e hmode hfail
    have hcfg := startupProxyFetch_proxifly_fail cfg fenv penv hmode e hfail
    refine ⟨?_, (runSequential_total cfg o fenv penv url).1, ?_⟩
    · unfold runSequentialScraping
      dsimp only
      rw [hcfg]
    · intro out hout
      unfold runSequentialScraping at hout
      dsimp only at hout
      rw [hcfg] at hout
      exact runSequentialLoop_none_no_proxy { cfg with proxyMode := "none" }
        o fenv penv url rfl _ _ _ _ _ out hout
  · intro cfg o fenvW penvW fenvMain penvMain url e hmode hfail
    have hcfg := startupProxyFetch_free_fail cfg fenvMain penvMain hmode e hfail
    constructor
    · unfold runConcurrentScraping
      dsimp only
      rw [hcfg]
    · intro hc
      exact (runConcurrent_total cfg o fenvW penvW fenvMain penvMain url hc).1
  · intro cfg o fenvW penvW fenvMain penvMain url e hmode hfail
    have hcfg := startupProxyFetch_proxifly_fail cfg fenvMain penvMain hmode e hfail
    constructor
    · unfold runConcurrentScraping
      dsimp only
      rw [hcfg]
    · intro hc
      exact (runConcurrent_total cfg o fenvW penvW fenvMain penvMain url hc).1

/-- Witness for the C10 amendment: the default free-list configuration
whose startup fetch always fails falls back to `proxyMode = 'none'` in the
sequential dispatcher, and a credential-less Proxifly configuration does
the same in the concurrent dispatcher. -/
theorem C10_direct_fallback_amended_witness :
    ((defaultConfig.proxyMode = "free-proxy-list" ∧
      (fetchFreeProxyList defaultConfig.freeSources c10FailEnv initState 0 0).result
        = .error "Failed to fetch proxies from all sources: HTTP 404") ∧
    (runSequentialScraping defaultConfig c10Oracles c10FailEnv
      (fun _ => .error "x") "url").cfg.proxyMode = "none") ∧
    ((c10PCfg.proxyMode = "proxifly" ∧
      (fetchProxiflyProxies c10PCfg (fun _ => .error "x") true initState 0).result
        = .error proxiflyKeyMsg) ∧
    (runConcurrentScraping c10PCfg (fun _ => c10Oracles) (fun _ => c10WEnv)
      (fun _ => fun _ => .error "x") c10FailEnv (fun _ => .error "x")
      "url").cfg.proxyMode = "none") := by
  refine ⟨⟨⟨rfl, by decide⟩, ?_⟩, ⟨rfl, by decide⟩, ?_⟩
  · exact (C10_direct_fallback_amended.1 defaultConfig c10Oracles c10FailEnv
      (fun _ => .error "x") "url" "Failed to fetch proxies from all sources: HTTP 404"
      rfl (by decide)).1
  · exact (C10_direct_fallback_amended.2.2.2 c10PCfg (fun _ => c10Oracles)
      (fun _ => c10WEnv) (fun _ => fun _ => .error "x") c10FailEnv
      (fun _ => .error "x") "url" proxiflyKeyMsg rfl (by decide)).1

/-- Claim C9, counterexample. The pool manager deduplicates only against
`usedProxies` at fetch time (code.js lines 183-186), never within one
listing, so after a retryable failure the retry's "fresh" assignment can
be the very same endpoint that just failed: here the unit makes 2 attempts
and both consume identity `3.3.3.3:80`. -/
theorem C9_counterexample :
    ((scrapeWithRetry defaultConfig c9Oracles c9Env (fun _ => .error "x") "url"
      0 initState 0 0 0).trace.proxies.map getProxyId
      = ["3.3.3.3:80", "3.3.3.3:80"]) ∧
    (scrapeWithRetry defaultConfig c9Oracles c9Env (fun _ => .error "x") "url"
      0 initState 0 0 0).trace.attempts = 2 := by
  exact ⟨by decide, by decide⟩

/-- In `proxifly` mode, when `getNextProxiflyProxy` throws, the attempt
re-throws its message with no record consumed, carrying the pool state and
fetch counter the failed acquisition left behind (code.js lines 553-555). -/
theorem scrapeAttempt_proxifly_err (cfg : Config) (o : Oracles) (fenv : FreeEnv)
    (penv : PEnv) (rc : Nat) (st : PoolState) (kf kp t : Nat)
    (hmode : cfg.proxyMode = "proxifly") (hua : o.ua t ≠ "") (e : String)
    (hN : (getNextProxiflyProxy cfg penv (o.rand t) st kp).result = .error e) :
    scrapeAttempt cfg o fenv penv rc st kf kp t
      = ⟨.error ⟨e, "Error"⟩, (getNextProxiflyProxy cfg penv (o.rand t) st kp).st,
          kf, (getNextProxiflyProxy cfg penv (o.rand t) st kp).k, [], []⟩ := by
  rw [scrapeAttempt]
  dsimp only
  rw [if_neg hua, hmode]
  rw [if_pos (show ("proxifly" : String) = "proxifly" from rfl)]
  rcases hNN : getNextProxiflyProxy cfg penv (o.rand t) st kp with ⟨nres, nst, nk⟩
  rw [hNN] at hN
  dsimp only at hN ⊢
  subst hN
  rfl

/-- In `proxifly` mode, when the acquired record fails the launch-time
shape validation, the attempt throws the invalid-format error after the
consumption but before any Task Executor invocation (code.js lines
424-433, 560). -/
theorem scrapeAttempt_proxifly_ok_bad (cfg : Config) (o : Oracles) (fenv : FreeEnv)
    (penv : PEnv) (rc : Nat) (st : PoolState) (kf kp t : Nat)
    (hmode : cfg.proxyMode = "proxifly") (hua : o.ua t ≠ "") (p : Proxy)
    (hN : (getNextProxiflyProxy cfg penv (o.rand t) st kp).result = .ok p)
    (hbad : badProxyShape (some p) = true) :
    scrapeAttempt cfg o fenv penv rc st kf kp t
      = ⟨.error ⟨"Invalid proxy format from Proxifly", "Error"⟩,
          (getNextProxiflyProxy cfg penv (o.rand t) st kp).st, kf,
          (getNextProxiflyProxy cfg penv (o.rand t) st kp).k, [p],
          [Ev.consumed (getProxyId p)]⟩ := by
  rw [scrapeAttempt]
  dsimp only
  rw [if_neg hua, hmode]
  rw [if_pos (show ("proxifly" : String) = "proxifly" from rfl)]
  rcases hNN : getNextProxiflyProxy cfg penv (o.rand t) st kp with ⟨nres, nst, nk⟩
  rw [hNN] at hN
  dsimp only at hN ⊢
  subst hN
  dsimp only
  rw [if_pos (show (decide (("proxifly" : String) = "proxifly")
      && badProxyShape (some p)) = true from by
    rw [show decide (("proxifly" : String) = "proxifly") = true from by decide, hbad]
    rfl)]

/-- In `proxifly` mode, when the acquired record passes the shape
validation, the attempt consumes exactly that record and its event trace
is the consumption immediately followed by the Task Executor invocation. -/
theorem scrapeAttempt_proxifly_ok_good (cfg : Config) (o : Oracles) (fenv : FreeEnv)
    (penv : PEnv) (rc : Nat) (st : PoolState) (kf kp t : Nat)
    (hmode : cfg.proxyMode = "proxifly") (hua : o.ua t ≠ "") (p : Proxy)
    (hN : (getNextProxiflyProxy cfg penv (o.rand t) st kp).result = .ok p)
    (hbad : badProxyShape (some p) = false) :
    (scrapeAttempt cfg o fenv penv rc st kf kp t).st
        = (getNextProxiflyProxy cfg penv (o.rand t) st kp).st ∧
    (scrapeAttempt cfg o fenv penv rc st kf kp t).kf = kf ∧
    (scrapeAttempt cfg o fenv penv rc st kf kp t).kp
        = (getNextProxiflyProxy cfg penv (o.rand t) st kp).k ∧
    (scrapeAttempt cfg o fenv penv rc st kf kp t).consumed = [p] ∧
    (scrapeAttempt cfg o fenv penv rc st kf kp t).evs
        = [Ev.consumed (getProxyId p), Ev.executed t] := by
  rw [scrapeAttempt]
  dsimp only
  rw [if_neg hua, hmode]
  rw [if_pos (show ("proxifly" : String) = "proxifly" from rfl)]
  rcases hNN : getNextProxiflyProxy cfg penv (o.rand t) st kp with ⟨nres, nst, nk⟩
  rw [hNN] at hN
  dsimp only at hN ⊢
  subst hN
  dsimp only
  rw [if_neg (show ¬((decide (("proxifly" : String) = "proxifly")
      && badProxyShape (some p)) = true) from by
    rw [show decide (("proxifly" : String) = "proxifly") = true from by decide, hbad]
    simp)]
  rcases ho : o.outcome t with e2 | ⟨status, title, finalUrl, viewCount, contentLength⟩
  · exact ⟨rfl, rfl, rfl, rfl, rfl⟩
  · dsimp only
    by_cases h400 : 400 ≤ status
    · rw [if_pos h400]
      by_cases hcode : (status = 429 ∨ 500 ≤ status) ∧ rc < cfg.maxRetries
      · rw [if_pos hcode]
        exact ⟨rfl, rfl, rfl, rfl, rfl⟩
      · rw [if_neg hcode]
        exact ⟨rfl, rfl, rfl, rfl, rfl⟩
    · rw [if_neg h400]
      exact ⟨rfl, rfl, rfl, rfl, rfl⟩

/-- In `proxifly` mode, a `scrapeWithRetry` run (entered at any
`retryCount`) preserves the Proxifly run invariant with the run's consumed
proxies appended, and its event trace is a sequence of consume-then-execute
blocks (with at most a final lone consumption when the shape validation
throws): every attempt that reaches the Task Executor obtained a fresh
pool assignment immediately before, retries included. -/
theorem scrapeAux_proxiflyMode (cfg : Config) (o : Oracles) (fenv : FreeEnv)
    (penv : PEnv) (url : String)
    (hmode : cfg.proxyMode = "proxifly")
    (henv : DupFreePEnv penv) :
    ∀ (gas rc : Nat) (st : PoolState) (kf kp t : Nat) (returned : List Proxy),
      ProxiflyInv cfg st returned →
      ProxiflyInv cfg (scrapeWithRetryAux cfg o fenv penv url gas rc st kf kp t).st
        (returned ++ (scrapeWithRetryAux cfg o fenv penv url gas rc st kf kp t).trace.proxies) ∧
      isConsumeExecSeq (scrapeWithRetryAux cfg o fenv penv url gas rc st kf kp t).trace.events
        = true := by
  intro gas
  induction gas with
  | zero =>
    intro rc st kf kp t returned hinv
    rw [scrapeWithRetryAux]
    by_cases hua : o.ua t = ""
    · rw [scrapeAttempt_ua_empty cfg o fenv penv rc st kf kp t hua]
      dsimp only
      split
      · exact ⟨by simpa using hinv, rfl⟩
      · exact ⟨by simpa using hinv, rfl⟩
    · rcases hres : (getNextProxiflyProxy cfg penv (o.rand t) st kp).result with e | p
      · rw [scrapeAttempt_proxifly_err cfg o fenv penv rc st kf kp t hmode hua e hres]
        dsimp only
        have hinv2 := getNextProxiflyProxy_inv cfg penv (o.rand t) st kp returned henv hinv
        have hcons : (getNextProxiflyProxy cfg penv (o.rand t) st kp).consumed = [] := by
          unfold NextOut.consumed
          rw [hres]
        rw [hcons, List.append_nil] at hinv2
        split
        · exact ⟨by simpa using hinv2, rfl⟩
        · exact ⟨by simpa using hinv2, rfl⟩
      · have hinv2 := getNextProxiflyProxy_inv cfg penv (o.rand t) st kp returned henv hinv
        have hconsN : (getNextProxiflyProxy cfg penv (o.rand t) st kp).consumed = [p] := by
          unfold NextOut.consumed
          rw [hres]
        rw [hconsN] at hinv2
        by_cases hbad : badProxyShape (some p) = true
        · rw [scrapeAttempt_proxifly_ok_bad cfg o fenv penv rc st kf kp t hmode hua p hres hbad]
          dsimp only
          rw [if_neg (show ¬((strIncludes "Invalid proxy format from Proxifly" "429"
              || strIncludes "Invalid proxy format from Proxifly" "5"
              || (("Error" : String) == "TimeoutError"))
              && decide (rc < cfg.maxRetries)) = true from by
            rw [show (strIncludes "Invalid proxy format from Proxifly" "429"
              || strIncludes "Invalid proxy format from Proxifly" "5"
              || (("Error" : String) == "TimeoutError")) = false from by decide]
            simp)]
          exact ⟨hinv2, rfl⟩
        · have hbadf : badProxyShape (some p) = false := by
            simpa using hbad
          obtain ⟨hst, hkf, hkp, hcons, hevs⟩ :=
            scrapeAttempt_proxifly_ok_good cfg o fenv penv rc st kf kp t hmode hua p hres hbadf
          rcases hA : scrapeAttempt cfg o fenv penv rc st kf kp t
            with ⟨ares, ast, akf, akp, acons, aevs⟩
          rw [hA] at hst hkf hkp hcons hevs
          dsimp only at hst hkf hkp hcons hevs
          subst hst hkf hkp hcons hevs
          dsimp only
          rcases ares with e2 | r
          · dsimp only
            split
            · exact ⟨hinv2, rfl⟩
            · exact ⟨hinv2, rfl⟩
          · dsimp only
            exact ⟨hinv2, rfl⟩
  | succ gas1 ih =>
    intro rc st kf kp t returned hinv
    rw [scrapeWithRetryAux]
    by_cases hua : o.ua t = ""
    · rw [scrapeAttempt_ua_empty cfg o fenv penv rc st kf kp t hua]
      dsimp only
      split
      · dsimp only
        rcases hR : scrapeWithRetryAux cfg o fenv penv url gas1 (rc + 1) st kf kp (t + 1)
          with ⟨res1, st2, kf2, kp2, t2, ⟨delays1, proxies1, attempts1, events1⟩⟩
        obtain ⟨ih1, ih2⟩ := ih (rc + 1) st kf kp (t + 1) returned hinv
        rw [hR] at ih1 ih2
        dsimp only at ih1 ih2
        exact ⟨by simpa using ih1, by simpa using ih2⟩
      · exact ⟨by simpa using hinv, rfl⟩
    · rcases hres : (getNextProxiflyProxy cfg penv (o.rand t) st kp).result with e | p
      · rw [scrapeAttempt_proxifly_err cfg o fenv penv rc st kf kp t hmode hua e hres]
        dsimp only
        have hinv2 := getNextProxiflyProxy_inv cfg penv (o.rand t) st kp returned henv hinv
        have hcons : (getNextProxiflyProxy cfg penv (o.rand t) st kp).consumed = [] := by
          unfold NextOut.consumed
          rw [hres]
        rw [hcons, List.append_nil] at hinv2
        split
        · dsimp only
          rcases hR : scrapeWithRetryAux cfg o fenv penv url gas1 (rc + 1)
              (getNextProxiflyProxy cfg penv (o.rand t) st kp).st kf
              (getNextProxiflyProxy cfg penv (o.rand t) st kp).k (t + 1)
            with ⟨res1, st2, kf2, kp2, t2, ⟨delays1, proxies1, attempts1, events1⟩⟩
          obtain ⟨ih1, ih2⟩ := ih (rc + 1) (getNextProxiflyProxy cfg penv (o.rand t) st kp).st
            kf (getNextProxiflyProxy cfg penv (o.rand t) st kp).k (t + 1) returned hinv2
          rw [hR] at ih1 ih2
          dsimp only at ih1 ih2
          exact ⟨by simpa using ih1, by simpa using ih2⟩
        · exact ⟨by simpa using hinv2, rfl⟩
      · have hinv2 := getNextProxiflyProxy_inv cfg penv (o.rand t) st kp returned henv hinv
        have hconsN : (getNextProxiflyProxy cfg penv (o.rand t) st kp).consumed = [p] := by
          unfold NextOut.consumed
          rw [hres]
        rw [hconsN] at hinv2
        by_cases hbad : badProxyShape (some p) = true
        · rw [scrapeAttempt_proxifly_ok_bad cfg o fenv penv rc st kf kp t hmode hua p hres hbad]
          dsimp only
          rw [if_neg (show ¬((strIncludes "Invalid proxy format from Proxifly" "429"
              || strIncludes "Invalid proxy format from Proxifly" "5"
              || (("Error" : String) == "TimeoutError"))
              && decide (rc < cfg.maxRetries)) = true from by
            rw [show (strIncludes "Invalid proxy format from Proxifly" "429"
              || strIncludes "Invalid proxy format from Proxifly" "5"
              || (("Error" : String) == "TimeoutError")) = false from by decide]
            simp)]
          exact ⟨hinv2, rfl⟩
        · have hbadf : badProxyShape (some p) = false := by
            simpa using hbad
          obtain ⟨hst, hkf, hkp, hcons, hevs⟩ :=
            scrapeAttempt_proxifly_ok_good cfg o fenv penv rc st kf kp t hmode hua p hres hbadf
          rcases hA : scrapeAttempt cfg o fenv penv rc st kf kp t
            with ⟨ares, ast, akf, akp, acons, aevs⟩
          rw [hA] at hst hkf hkp hcons hevs
          dsimp only at hst hkf hkp hcons hevs
          subst hst hkf hkp hcons hevs
          dsimp only
          rcases ares with e2 | r
          · dsimp only
            split
            · dsimp only
              rcases hR : scrapeWithRetryAux cfg o fenv penv url gas1 (rc + 1)
                  (getNextProxiflyProxy cfg penv (o.rand t) st kp).st akf
                  (getNextProxiflyProxy cfg penv (o.rand t) st kp).k (t + 1)
                with ⟨res1, st2, kf2, kp2, t2, ⟨delays1, proxies1, attempts1, events1⟩⟩
              obtain ⟨ih1, ih2⟩ := ih (rc + 1)
                (getNextProxiflyProxy cfg penv (o.rand t) st kp).st akf
                (getNextProxiflyProxy cfg penv (o.rand t) st kp).k (t + 1) (returned ++ [p]) hinv2
              rw [hR] at ih1 ih2
              dsimp only at ih1 ih2
              constructor
              · rw [← List.append_assoc]
                exact ih1
              · simpa [isConsumeExecSeq] using ih2
            · exact ⟨hinv2, rfl⟩
          · dsimp only
            exact ⟨hinv2, rfl⟩


/-- Claim C9 (amended): under either pool-managed proxy policy
(`free-proxy-list` or `proxifly`), every attempt of a work unit — the
first one and every retry — obtains a fresh pool assignment from the pool
manager before invoking the Task Executor (the event trace is a sequence
of consume-then-execute blocks; in `proxifly` mode an attempt whose record
fails the launch-time shape validation consumes without reaching the
executor). Provided every fetched listing or batch carries
pairwise-distinct identities, no two attempts of the unit ever use the
same proxy identity: a failed attempt's proxy is then never reused on the
retry. -/
theorem C9_fresh_assignment_amended :
    (∀ (cfg : Config) (o : Oracles) (fenv : FreeEnv) (penv : PEnv) (url : String)
      (rc : Nat) (st : PoolState) (kf kp t : Nat),
      cfg.proxyMode = "free-proxy-list" →
      DupFreeFreeEnv fenv →
      FreeInv cfg st [] →
      isConsumeExecSeq
        (scrapeWithRetry cfg o fenv penv url rc st kf kp t).trace.events = true ∧
      ((scrapeWithRetry cfg o fenv penv url rc st kf kp t).trace.proxies.map
        getProxyId).Nodup) ∧
    (∀ (cfg : Config) (o : Oracles) (fenv : FreeEnv) (penv : PEnv) (url : String)
      (rc : Nat) (st : PoolState) (kf kp t : Nat),
      cfg.proxyMode = "proxifly" →
      DupFreePEnv penv →
      ProxiflyInv cfg st [] →
      isConsumeExecSeq
        (scrapeWithRetry cfg o fenv penv url rc st kf kp t).trace.events = true ∧
      ((scrapeWithRetry cfg o fenv penv url rc st kf kp t).trace.proxies.map
        getProxyId).Nodup) := by
  constructor
  · intro cfg o fenv penv url rc st kf kp t hmode henv hinv
    rw [scrapeWithRetry]
    obtain ⟨h1, h2⟩ := scrapeAux_freeMode cfg o fenv penv url hmode henv
      (cfg.maxRetries + 1 - rc) rc st kf kp t [] hinv
    rw [List.nil_append] at h1
    exact ⟨h2, h1.1.1⟩
  · intro cfg o fenv penv url rc st kf kp t hmode henv hinv
    rw [scrapeWithRetry]
    obtain ⟨h1, h2⟩ := scrapeAux_proxiflyMode cfg o fenv penv url hmode henv
      (cfg.maxRetries + 1 - rc) rc st kf kp t [] hinv
    rw [List.nil_append] at h1
    exact ⟨h2, h1.1.1⟩

/-- Witness for the amended C9 theorem: concrete duplicate-free
environments for both pooled modes, with the retrying oracles of the
counterexample. -/
theorem C9_fresh_assignment_amended_witness :
    ((defaultConfig.proxyMode = "free-proxy-list" ∧ DupFreeFreeEnv c9WEnv ∧
      FreeInv defaultConfig initState []) ∧
    isConsumeExecSeq (scrapeWithRetry defaultConfig c9Oracles c9WEnv
      (fun _ => .error "x") "url" 0 initState 0 0 0).trace.events = true ∧
    ((scrapeWithRetry defaultConfig c9Oracles c9WEnv (fun _ => .error "x") "url"
      0 initState 0 0 0).trace.proxies.map getProxyId).Nodup) ∧
    ((c9ProxiflyCfg.proxyMode = "proxifly" ∧ DupFreePEnv c9PEnv ∧
      ProxiflyInv c9ProxiflyCfg initState []) ∧
    isConsumeExecSeq (scrapeWithRetry c9ProxiflyCfg c9Oracles (fun _ => .error "x")
      c9PEnv "url" 0 initState 0 0 0).trace.events = true ∧
    ((scrapeWithRetry c9ProxiflyCfg c9Oracles (fun _ => .error "x") c9PEnv "url"
      0 initState 0 0 0).trace.proxies.map getProxyId).Nodup) := by
  have henvF : DupFreeFreeEnv c9WEnv := by
    intro k s hs
    simp only [c9WEnv] at hs
    cases hs
    decide
  have henvP : DupFreePEnv c9PEnv := by
    intro k l hl
    simp only [c9PEnv] at hl
    cases hl
    decide
  exact ⟨⟨⟨rfl, henvF, freeInv_init defaultConfig⟩,
    C9_fresh_assignment_amended.1 defaultConfig c9Oracles c9WEnv (fun _ => .error "x")
      "url" 0 initState 0 0 0 rfl henvF (freeInv_init defaultConfig)⟩,
    ⟨rfl, henvP, proxiflyInv_init c9ProxiflyCfg⟩,
    C9_fresh_assignment_amended.2 c9ProxiflyCfg c9Oracles (fun _ => .error "x")
      c9PEnv "url" 0 initState 0 0 0 rfl henvP (proxiflyInv_init c9ProxiflyCfg)⟩

